import Mathlib

/-!
Verification development for the kmu-esg-reporter conversational ESG
orchestrator.  The definitions below are a shallow embedding of the
Python source:

* `app/services/report/ai_enrich.py`   — the enrichment coordinator
  (`ESGEnricher._with_timeout`, `ESGEnricher._enrich_with_guard`);
* `app/services/chatbot/langgraph/esg_chatbot.py` — the LangGraph
  workflow engine (`ESGReportChatbot`) and its four tools;
* `app/services/chatbot/langchain_handler.py` — the response generator
  with its keyword fallback (`LangChainHandler.generate_response`,
  `LangChainHandler._fallback_response`);
* `app/data/processors/data_processor.py` — the data-processing
  collaborator (`ESGDataProcessor`).

Python dictionaries are modelled as insertion-ordered association
structures of JSON values (`JVal` / `JFields`), with Python truthiness
(`pyTruthy`) and dict-literal merge semantics (`setKey` for
`\x7b**d, "k": v\x7d`) made explicit.  Python `float` values are
represented as exact rationals (`Rat`); no theorem below inspects a
float-valued computation, only structure and integer counts.  Exceptions
are modelled with `Except` where the source lets them escape, and by
total functions where the source catches them.
-/

namespace EsgReporter

mutual

/-- JSON-like values: the model of the Python objects flowing through the
enrichment coordinator and the chatbot state (`Dict[str, Any]`). -/
inductive JVal where
  | jnull
  | jbool (b : Bool)
  | jnum (q : Rat)
  | jstr (s : String)
  | jarr (xs : JList)
  | jobj (fields : JFields)
deriving DecidableEq

/-- A Python list of JSON values. -/
inductive JList where
  | nil
  | cons (v : JVal) (tl : JList)
deriving DecidableEq

/-- A Python dict: insertion-ordered sequence of key/value pairs.  Dicts
produced by the source never repeat a key. -/
inductive JFields where
  | nil
  | cons (k : String) (v : JVal) (tl : JFields)
deriving DecidableEq

end

/-- Alias matching the Python type annotation `Dict[str, Any]`. -/
abbrev Obj := JFields

namespace JFields

/-- Emptiness of a dict. -/
def isEmpty : JFields → Bool
  | .nil => true
  | .cons _ _ _ => false

/-- Number of entries. -/
def length : JFields → Nat
  | .nil => 0
  | .cons _ _ tl => 1 + tl.length

/-- Concatenation of field sequences. -/
def append : JFields → JFields → JFields
  | .nil, gs => gs
  | .cons k v tl, gs => .cons k v (append tl gs)

instance : Append JFields := ⟨JFields.append⟩

/-- `d.get(k)` on a Python dict: the value stored under the first (only)
occurrence of `k`, if any. -/
def pyGet : JFields → String → Option JVal
  | .nil, _ => none
  | .cons k v tl, key => if k = key then some v else pyGet tl key

/-- `d.get(k, default)`. -/
def pyGetD (o : JFields) (k : String) (dflt : JVal) : JVal :=
  (o.pyGet k).getD dflt

/-- `k in d` for a Python dict. -/
def hasKey (o : JFields) (k : String) : Bool :=
  (o.pyGet k).isSome

/-- Replace the value stored under `key` wherever it occurs, keeping the
original position of the entry. -/
def replaceKey : JFields → String → JVal → JFields
  | .nil, _, _ => .nil
  | .cons k v tl, key, nv =>
    if k = key then .cons key nv (replaceKey tl key nv)
    else .cons k v (replaceKey tl key nv)

/-- Dict update as performed by the literal `\x7b**d, k: v\x7d` and by the
assignment `d[k] = v`: if `k` is already a key of `d` its value is replaced
in place, otherwise the pair is appended at the end (Python dicts preserve
insertion order). -/
def setKey (o : JFields) (k : String) (v : JVal) : JFields :=
  if o.hasKey k then o.replaceKey k v else o ++ .cons k v .nil

end JFields

namespace JVal

/-- Python truthiness (`bool(x)`) on the modelled values: `None`, `False`,
`0`, `""`, `[]` and `\x7b\x7d` are falsy, everything else truthy. -/
def pyTruthy : JVal → Bool
  | .jnull => false
  | .jbool b => b
  | .jnum q => !(q == 0)
  | .jstr s => !s.isEmpty
  | .jarr .nil => false
  | .jarr (.cons _ _) => true
  | .jobj fs => !fs.isEmpty

end JVal

/-! ### JSON serialization (`json.dumps`)

`ESGEnricher._enrich_with_guard` keys its cache by
`json.dumps(esg_metrics, sort_keys=True, ensure_ascii=False)[:20000]`.
We model `json.dumps` in two steps: `canonV` recursively sorts every
object's keys (the effect of `sort_keys=True`), and `serV` renders the
tree with the default separators `", "` and `": "`
(`ensure_ascii=False` keeps non-ASCII characters unescaped).  A second
renderer `pserV` models `json.dumps(..., indent=2)` as used by the
chatbot tools.  Python float rendering is not reproduced (floats are
modelled as exact rationals); no proof below depends on the rendering
of a non-integer number. -/

/-- Lexicographic comparison of strings by code point, as used by
Python's `sorted` on `str`. -/
def lexLe : List Char → List Char → Bool
  | [], _ => true
  | _ :: _, [] => false
  | a :: as, b :: bs => if a = b then lexLe as bs else decide (a < b)

/-- Insert a field into a key-sorted field sequence (stable). -/
def insField (k : String) (v : JVal) : JFields → JFields
  | .nil => .cons k v .nil
  | .cons k' v' tl =>
    if lexLe k.data k'.data then .cons k v (.cons k' v' tl)
    else .cons k' v' (insField k v tl)

/-- Sort a field sequence by key (insertion sort; Python dict keys are
unique, so stability questions do not arise). -/
def sortFields : JFields → JFields
  | .nil => .nil
  | .cons k v tl => insField k v (sortFields tl)

mutual

/-- Recursively sort every object's keys: the effect of
`sort_keys=True` applied at each nesting level. -/
def canonV : JVal → JVal
  | .jnull => .jnull
  | .jbool b => .jbool b
  | .jnum q => .jnum q
  | .jstr s => .jstr s
  | .jarr xs => .jarr (canonL xs)
  | .jobj fs => .jobj (sortFields (canonF fs))

def canonL : JList → JList
  | .nil => .nil
  | .cons v tl => .cons (canonV v) (canonL tl)

def canonF : JFields → JFields
  | .nil => .nil
  | .cons k v tl => .cons k (canonV v) (canonF tl)

end

/-- One hexadecimal digit (lower case), for `\u00XX` escapes. -/
def hexDig (n : Nat) : Char :=
  if n < 10 then Char.ofNat (48 + n) else Char.ofNat (97 + (n - 10))

/-- JSON escaping of one character, as `json.dumps` performs with
`ensure_ascii=False`: quote, backslash and control characters are
escaped, everything else (including non-ASCII) is kept. -/
def escC (c : Char) : List Char :=
  if c = '"' then ['\\', '"']
  else if c = '\\' then ['\\', '\\']
  else if c = '\n' then ['\\', 'n']
  else if c = '\t' then ['\\', 't']
  else if c = '\r' then ['\\', 'r']
  else if c = Char.ofNat 8 then ['\\', 'b']
  else if c = Char.ofNat 12 then ['\\', 'f']
  else if c.toNat < 32 then
    ['\\', 'u', '0', '0', hexDig (c.toNat / 16), hexDig (c.toNat % 16)]
  else [c]

/-- Escape a character sequence. -/
def escList : List Char → List Char
  | [] => []
  | c :: cs => escC c ++ escList cs

/-- A JSON string literal: `"..."` with escaping. -/
def serStr (s : String) : List Char :=
  '"' :: escList s.data ++ ['"']

/-- Rendering of a number.  Integral rationals render like Python ints;
the non-integral case stands in for Python float rendering, which is not
modelled (no proof inspects it). -/
def numRepr (q : Rat) : List Char :=
  if q.den = 1 then (toString q.num).data
  else (toString q.num).data ++ '/' :: (toString q.den).data

mutual

/-- Compact JSON rendering with the default `json.dumps` separators
`", "` (items) and `": "` (keys), written with an explicit
continuation: `serVA v rest` is the rendering of `v` followed by
`rest`.  The continuation style keeps the output right-nested, which
the prefix lemmas below rely on. -/
def serVA : JVal → List Char → List Char
  | .jnull, r => 'n' :: 'u' :: 'l' :: 'l' :: r
  | .jbool true, r => 't' :: 'r' :: 'u' :: 'e' :: r
  | .jbool false, r => 'f' :: 'a' :: 'l' :: 's' :: 'e' :: r
  | .jnum q, r => numRepr q ++ r
  | .jstr s, r => '"' :: (escList s.data ++ ('"' :: r))
  | .jarr xs, r => '[' :: serLA xs (']' :: r)
  | .jobj fs, r => '{' :: serFA fs ('}' :: r)

def serLA : JList → List Char → List Char
  | .nil, r => r
  | .cons v .nil, r => serVA v r
  | .cons v (.cons w tl), r => serVA v (',' :: ' ' :: serLA (.cons w tl) r)

def serFA : JFields → List Char → List Char
  | .nil, r => r
  | .cons k v .nil, r => '"' :: (escList k.data ++ ('"' :: ':' :: ' ' :: serVA v r))
  | .cons k v (.cons k' w tl), r =>
    '"' :: (escList k.data ++
      ('"' :: ':' :: ' ' :: serVA v (',' :: ' ' :: serFA (.cons k' w tl) r)))

end

/-- Compact rendering of one value. -/
def serV (v : JVal) : List Char := serVA v []

/-- `json.dumps(x, sort_keys=True, ensure_ascii=False)`. -/
def dumpsSorted (v : JVal) : List Char := serV (canonV v)

/-- `json.dumps(x, ensure_ascii=False)` (insertion order kept). -/
def dumpsPlain (v : JVal) : List Char := serV v

/-- Newline plus indentation for `indent=2` rendering. -/
def ind (lvl : Nat) : List Char := '\n' :: List.replicate (2 * lvl) ' '

mutual

/-- `json.dumps(x, ensure_ascii=False, indent=2)`: pretty rendering with
item separator `","` followed by a newline and key separator `": "`. -/
def pserV (lvl : Nat) : JVal → List Char
  | .jnull => "null".data
  | .jbool true => "true".data
  | .jbool false => "false".data
  | .jnum q => numRepr q
  | .jstr s => serStr s
  | .jarr .nil => ['[', ']']
  | .jarr (.cons v tl) => '[' :: pserL (lvl + 1) (.cons v tl) ++ ind lvl ++ [']']
  | .jobj .nil => ['{', '}']
  | .jobj (.cons k v tl) => '{' :: pserF (lvl + 1) (.cons k v tl) ++ ind lvl ++ ['}']

def pserL (lvl : Nat) : JList → List Char
  | .nil => []
  | .cons v .nil => ind lvl ++ pserV lvl v
  | .cons v (.cons w tl) =>
    ind lvl ++ pserV lvl v ++ ',' :: pserL lvl (.cons w tl)

def pserF (lvl : Nat) : JFields → List Char
  | .nil => []
  | .cons k v .nil => ind lvl ++ serStr k ++ ':' :: ' ' :: pserV lvl v
  | .cons k v (.cons k' w tl) =>
    ind lvl ++ serStr k ++ ':' :: ' ' :: pserV lvl v ++ ',' :: pserF lvl (.cons k' w tl)

end

/-- `json.dumps(x, ensure_ascii=False, indent=2)` at top level. -/
def dumpsPretty (v : JVal) : List Char := pserV 0 v

/-! ### Enrichment coordinator (`app/services/report/ai_enrich.py`)

`ESGEnricher._enrich_with_guard` looks up a process-wide cache keyed by
the truncated canonical serialization of the input metrics, and on a
miss issues the three section generation calls concurrently, each
guarded by `ESGEnricher._with_timeout(coro, 12, \x7b\x7d)`.  One
invocation of a section's structured-output runnable is one external
generation call; its observable behaviour is one of: return a
schema-validated structured object (a dict, via `_to_dict` on the
pydantic model), exceed the 12-second budget (`asyncio.TimeoutError`),
or raise (transport failure or malformed structured output — the
runnable either yields a schema-conformant object or raises).
`SectionOutcome` enumerates exactly these three behaviours. -/

/-- Observable behaviour of one guarded section call. -/
inductive SectionOutcome where
  | success (fields : Obj)
  | timedOut
  | errored
deriving DecidableEq

/-- A section call that did not produce a structured object. -/
def SectionOutcome.isFailure : SectionOutcome → Bool
  | .success _ => false
  | .timedOut => true
  | .errored => true

/-- `ESGEnricher._with_timeout(coro, seconds, fallback)`: the awaited
dict on success, the fallback on `asyncio.TimeoutError`, and the
fallback on any other exception (both handlers log and return it). -/
def withTimeout (o : SectionOutcome) (fallback : Obj) : Obj :=
  match o with
  | .success fields => fields
  | .timedOut => fallback
  | .errored => fallback

/-- `esg_metrics.get(name) or \x7b\x7d`: the stored value when truthy,
otherwise an empty dict (missing key, `None`, and empty containers all
collapse to the empty dict). -/
def sectionRawVal (m : Obj) (name : String) : JVal :=
  let v := (m.pyGet name).getD .jnull
  if v.pyTruthy then v else .jobj .nil

/-- Unpacking `\x7b**raw, ...\x7d` requires a dict; a truthy non-dict
section value makes the Python raise `TypeError`. -/
def asObjE : JVal → Except String Obj
  | .jobj fs => .ok fs
  | _ => .error "TypeError"

/-- `(section_en or \x7b\x7d).get("executive_summary")`, mapping the
absent case to `None`. -/
def sectionSummary (en : Obj) : JVal :=
  ((if (JVal.jobj en).pyTruthy then en else .nil).pyGet
    "executive_summary").getD .jnull

/-- The merged result dict built by `_enrich_with_guard`: each section's
raw metrics with the `"ai"` key set to the section's enrichment (always
a dict: the structured output on success, the `\x7b\x7d` fallback
otherwise, so the `isinstance(..., dict)` guard in the source always
takes its first branch), plus the synthesized `"summary"` object. -/
def mergeEnriched (envRaw socRaw govRaw envEn socEn govEn : Obj) : Obj :=
  .cons "environment" (.jobj (envRaw.setKey "ai" (.jobj envEn)))
  (.cons "social" (.jobj (socRaw.setKey "ai" (.jobj socEn)))
  (.cons "governance" (.jobj (govRaw.setKey "ai" (.jobj govEn)))
  (.cons "summary" (.jobj
    (.cons "E_summary" (sectionSummary envEn)
    (.cons "S_summary" (sectionSummary socEn)
    (.cons "G_summary" (sectionSummary govEn) .nil)))) .nil)))

/-- The process-wide enrichment cache `self._enrich_cache`. -/
abbrev EnrichCache := List (List Char × Obj)

/-- `json.dumps(esg_metrics, sort_keys=True, ensure_ascii=False)[:20000]`:
the cache key is the canonical serialization truncated to its first
20000 characters. -/
def cacheKey (m : Obj) : List Char :=
  (dumpsSorted (.jobj m)).take 20000

/-- `key in self._enrich_cache` / `self._enrich_cache[key]`. -/
def lookupCache (c : EnrichCache) (k : List Char) : Option Obj :=
  (c.find? (fun p => p.1 == k)).map (fun p => p.2)

/-- Result of one `_enrich_with_guard` invocation: the returned merged
dict, the cache afterwards, and how many external generation calls the
invocation issued (three `ainvoke` coroutines on a miss, none on a
hit). -/
structure EnrichRun where
  result : Obj
  cache : EnrichCache
  extCalls : Nat
deriving DecidableEq

/-- `ESGEnricher._enrich_with_guard(esg_metrics)` over an explicit cache
state and the three section-call behaviours.  On a cache hit the cached
merged dict is returned with no external call; on a miss the three
section calls are issued, merged with per-section fallbacks, and the
result is stored under the input's key. -/
def enrichWithGuard (cache : EnrichCache) (m : Obj)
    (oE oS oG : SectionOutcome) : Except String EnrichRun :=
  let key := cacheKey m
  match lookupCache cache key with
  | some cached => .ok ⟨cached, cache, 0⟩
  | none =>
    match asObjE (sectionRawVal m "environment"),
          asObjE (sectionRawVal m "social"),
          asObjE (sectionRawVal m "governance") with
    | .ok envRaw, .ok socRaw, .ok govRaw =>
      let envEn := withTimeout oE .nil
      let socEn := withTimeout oS .nil
      let govEn := withTimeout oG .nil
      let enriched := mergeEnriched envRaw socRaw govRaw envEn socEn govEn
      .ok ⟨enriched, (key, enriched) :: cache, 3⟩
    | _, _, _ => .error "TypeError"

/-- The enrichment stored under a section key of a merged result: the
value of the section's `"ai"` entry. -/
def aiOf (result : Obj) (sec : String) : Option JVal :=
  match result.pyGet sec with
  | some (.jobj fields) => fields.pyGet "ai"
  | _ => none

/-! ### Concrete metrics that collide in the truncated cache key

The cache key truncates the canonical serialization to 20000
characters.  Two metrics dicts whose serializations agree on the first
20000 characters therefore share a cache slot even though they are
different inputs.  `noteMetrics c` embeds a 20001-character string note
whose last character is `c`: the serializations of `noteMetrics 'y'`
and `noteMetrics 'z'` differ only beyond position 20000. -/

/-- 20000 repetitions of `'x'`. -/
def longX : List Char := List.replicate 20000 'x'

/-- A raw environment section carrying one long string note. -/
def rawNote (c : Char) : Obj :=
  .cons "note" (.jstr (String.mk (longX ++ [c]))) .nil

/-- Metrics with a single `"environment"` section whose serialization
exceeds the 20000-character truncation. -/
def noteMetrics (c : Char) : Obj :=
  .cons "environment" (.jobj (rawNote c)) .nil

/-- The part of the canonical serialization of `noteMetrics c` that
precedes the long run of `'x'`. -/
def keyStem : List Char :=
  ['{', '"', 'e', 'n', 'v', 'i', 'r', 'o', 'n', 'm', 'e', 'n', 't', '"', ':', ' ',
   '{', '"', 'n', 'o', 't', 'e', '"', ':', ' ', '"']

/-! ### Intent classification (`ESGReportChatbot._analyze_intent`) and
response generation (`LangChainHandler`) -/

/-- Does `needle` start at the head of `hay`? -/
def headMatch : List Char → List Char → Bool
  | _, [] => true
  | [], _ :: _ => false
  | a :: as, b :: bs => a == b && headMatch as bs

/-- Substring search on character lists. -/
def hasSub : List Char → List Char → Bool
  | [], n => n.isEmpty
  | a :: t, n => headMatch (a :: t) n || hasSub t n

/-- `needle in hay` for Python strings. -/
def strIn (needle hay : String) : Bool := hasSub hay.data needle.data

/-- `s.lower()`.  Characterwise lowering; identical to Python for the
ASCII and Korean text involved here. -/
def toLowerStr (s : String) : String := String.mk (s.data.map Char.toLower)

/-- `any(keyword in q for keyword in kws)`. -/
def kwAny (kws : List String) (q : String) : Bool := kws.any (fun k => strIn k q)

/-- Report-generation keywords of `_analyze_intent`. -/
def reportKeywords : List String := ["보고서", "리포트", "생성", "작성"]

/-- Data-query keywords of `_analyze_intent`. -/
def dataKeywords : List String := ["데이터", "수치", "현황", "보여줘"]

/-- Analysis keywords of `_analyze_intent`. -/
def analysisKeywords : List String := ["분석", "트렌드", "비교", "개선"]

/-- The keyword branch of `_analyze_intent` over the lowercased query:
report keywords first, then data keywords, then analysis keywords, and
`general_query` when nothing matches. -/
def keywordIntent (q : String) : String :=
  if kwAny reportKeywords q then "report_generation"
  else if kwAny dataKeywords q then "data_query"
  else if kwAny analysisKeywords q then "analysis_request"
  else "general_query"

/-- The intent decision of `ESGReportChatbot._analyze_intent` given the
lowercased query and the `ui_context` value: when `ui_context` is
truthy and holds a truthy `selected_intent`, that value is used
verbatim; otherwise the keyword priority decides.  (Through
`classifyIntent` the `some` branch is provably unreachable: the marker
guard below never fires on a lowercased query.) -/
def analyzeIntentValue (queryLower : String) (uiContext : Option Obj) : JVal :=
  match uiContext with
  | some ctx =>
    if (JVal.jobj ctx).pyTruthy && (ctx.pyGetD "selected_intent" .jnull).pyTruthy then
      ctx.pyGetD "selected_intent" .jnull
    else .jstr (keywordIntent queryLower)
  | none => .jstr (keywordIntent queryLower)

/-- The literal marker `_analyze_intent` searches for — note the
uppercase `U` and `I`, which cannot occur in a lowercased query. -/
def uiMarker : String := "[UI 설정:"

/-- `ESGReportChatbot._analyze_intent`, from the raw query.  The source
first lowercases the query, then checks `"[UI 설정:" in query` on the
lowercased text; only when the marker occurs does it split out the
segment and `eval` it into `ui_context` (evaluation of Python source
text is not representable in the embedding, so the would-be parse
result is the explicit optional dict argument, `none` when the parse
fails, matching the source's `except: ui_context = None`); when the
marker is absent, `ui_context` stays `None`. -/
def classifyIntent (query : String) (uiContext : Option Obj) : JVal :=
  analyzeIntentValue (toLowerStr query)
    (if strIn uiMarker (toLowerStr query) then uiContext else none)

/-- Data-query keywords of the legacy `ESGChatbot._analyze_intent`. -/
def legacyDataKeywords : List String :=
  ["show", "display", "what is", "how much", "data", "metrics", "values"]

/-- Report keywords of the legacy `ESGChatbot._analyze_intent`. -/
def legacyReportKeywords : List String :=
  ["report", "generate", "create", "summary", "analysis"]

/-- Analysis keywords of the legacy `ESGChatbot._analyze_intent`. -/
def legacyAnalysisKeywords : List String :=
  ["analyze", "trend", "compare", "benchmark", "performance"]

/-- The `type` field of the legacy `ESGChatbot._analyze_intent` result:
this classifier checks data-query keywords first, then report keywords,
then analysis keywords, defaulting to `general_query`. -/
def legacyIntentType (message : String) : String :=
  let m := toLowerStr message
  if kwAny legacyDataKeywords m then "data_query"
  else if kwAny legacyReportKeywords m then "report_generation"
  else if kwAny legacyAnalysisKeywords m then "analysis_request"
  else "general_query"

/-- A single apostrophe (the fallback texts below contain several). -/
def apos : String := String.singleton (Char.ofNat 39)

/-- `LangChainHandler._fallback_response` text for report keywords. -/
def reportFallback : String :=
  "I" ++ apos ++ "d be happy to help you generate an ESG report. However, I need access to your company" ++ apos ++ "s ESG data first. \n            Please upload your ESG data through the data input section, and then I can create a comprehensive report for you."

/-- `LangChainHandler._fallback_response` text for data keywords. -/
def dataFallback : String :=
  "To show you ESG data, I need to access your company" ++ apos ++ "s data first. \n            Please make sure you have uploaded your ESG data through the data management section."

/-- `LangChainHandler._fallback_response` text for help keywords. -/
def helpFallback : String :=
  "I" ++ apos ++ "m here to help with your ESG reporting needs! I can:\n            \n            1. Generate comprehensive ESG reports\n            2. Analyze your ESG data and identify trends\n            3. Help you understand ESG metrics and benchmarks\n            4. Suggest improvements for your ESG performance\n            5. Answer questions about ESG best practices\n            \n            To get started, please upload your ESG data, and then ask me specific questions about your performance."

/-- `LangChainHandler._fallback_response` default text. -/
def generalFallback : String :=
  "I" ++ apos ++ "m an ESG reporting assistant. I can help you with ESG data analysis, report generation, \n            and performance insights. Please upload your ESG data first, then ask me about your environmental, \n            social, or governance performance."

/-- `LangChainHandler._fallback_response(user_input)`: a deterministic
fallback string selected by keyword matching on the lowercased input. -/
def fallbackResponse (userInput : String) : String :=
  let lower := toLowerStr userInput
  if kwAny ["report", "generate"] lower then reportFallback
  else if kwAny ["data", "show", "display"] lower then dataFallback
  else if kwAny ["help", "how"] lower then helpFallback
  else generalFallback

/-- `LangChainHandler.generate_response(prompt, ...)`: when the chat
model is not configured (absent API key) the fallback is returned; when
the external call raises, the handler catches, logs, and returns the
fallback; otherwise the generated content is returned.  The function is
total: no exception reaches the caller. -/
def generateResponseLC (configured : Bool) (callOutcome : Except String String)
    (prompt : String) : String :=
  if !configured then fallbackResponse prompt
  else
    match callOutcome with
    | .ok content => content
    | .error _ => fallbackResponse prompt

/-! ### Database rows and the data-processing collaborator
(`app/data/processors/data_processor.py`)

Only the columns the modelled code reads are carried.  Employee rows
additionally have name/birth/contact columns, company rows an address
history — none of them influence any modelled computation. -/

/-- A `CMP_INFO` row. -/
structure CmpRec where
  cmp_num : String
  cmp_branch : Option String
  cmp_nm : String
  cmp_industry : Option String
  cmp_sector : Option String
  cmp_addr : Option String
  cmp_extemp : Option Int
  cmp_ethics_yn : Option String
  cmp_comp_yn : Option String
deriving DecidableEq

/-- An `EMP_INFO` row (columns used by the metrics). -/
structure EmpRec where
  emp_gender : Option String
  emp_board_yn : Option String
  emp_acident_cnt : Option Int
  emp_comp : Option String
deriving DecidableEq

/-- An `ENV` row. -/
structure EnvRec where
  year : Int
  energy_use : Option Rat
  green_use : Option Rat
  renewable_yn : Option String
  renewable_ratio : Option Rat
deriving DecidableEq

/-- A `reports` row as the chatbot's report tool constructs it. -/
structure ReportRec where
  cmp_num : String
  title : String
  report_type : String
  content : List Char
  generated_by : String
  format : String
deriving DecidableEq

/-- One stored chat message (half of a Turn pair). -/
structure TurnMsg where
  role : String
  content : String
  timestamp : String
deriving DecidableEq

/-- A `chat_sessions` row. -/
structure SessionRec where
  session_id : String
  messages : List TurnMsg
  message_count : Nat
  last_activity : String
deriving DecidableEq

/-- The relational store as the chatbot sees it. -/
structure Db where
  companies : List CmpRec
  employees : List EmpRec
  envRows : List EnvRec
  reports : List ReportRec
  sessions : List SessionRec
deriving DecidableEq

/-- `None` maps to JSON null, a string to a JSON string. -/
def optStr : Option String → JVal
  | none => .jnull
  | some s => .jstr s

/-- `None` maps to JSON null, an integer to a JSON number. -/
def optInt : Option Int → JVal
  | none => .jnull
  | some n => .jnum n

/-- Ordering on branch labels for `order_by(cmp_branch.asc())` (a null
branch sorts first). -/
def branchLe (a b : Option String) : Bool :=
  match a, b with
  | none, _ => true
  | some _, none => false
  | some x, some y => lexLe x.data y.data

/-- Insertion into a branch-sorted company list (stable). -/
def insCmp (c : CmpRec) : List CmpRec → List CmpRec
  | [] => [c]
  | d :: ds =>
    if branchLe c.cmp_branch d.cmp_branch then c :: d :: ds else d :: insCmp c ds

/-- Sort companies by branch ascending. -/
def sortByBranch : List CmpRec → List CmpRec
  | [] => []
  | c :: cs => insCmp c (sortByBranch cs)

/-- The dict `ESGDataProcessor.get_company_info` builds from a row. -/
def companyInfoObj (c : CmpRec) : Obj :=
  .cons "cmp_num" (.jstr c.cmp_num)
  (.cons "cmp_branch" (optStr c.cmp_branch)
  (.cons "cmp_nm" (.jstr c.cmp_nm)
  (.cons "cmp_industry" (optStr c.cmp_industry)
  (.cons "cmp_sector" (optStr c.cmp_sector)
  (.cons "cmp_addr" (optStr c.cmp_addr)
  (.cons "cmp_extemp" (optInt c.cmp_extemp)
  (.cons "cmp_ethics_yn" (optStr c.cmp_ethics_yn)
  (.cons "cmp_comp_yn" (optStr c.cmp_comp_yn) .nil))))))))

/-- `ESGDataProcessor.get_company_info(cmp_num)` (no branch argument):
the first row for the number in branch order, as a dict. -/
def getCompanyInfo (db : Db) (cmp_num : String) : Option Obj :=
  match sortByBranch (db.companies.filter (fun c => c.cmp_num == cmp_num)) with
  | [] => none
  | c :: _ => some (companyInfoObj c)

/-- `ESGDataProcessor.get_employee_data(cmp_num)`: all employee rows,
filtered by `EMP_COMP` when a truthy company number is passed. -/
def getEmployeeData (db : Db) (cmp_num : Option String) : List EmpRec :=
  match cmp_num with
  | some c =>
    if c.isEmpty then db.employees
    else db.employees.filter (fun r => r.emp_comp == some c)
  | none => db.employees

/-- Insertion into a year-sorted environment list (stable). -/
def insEnv (r : EnvRec) : List EnvRec → List EnvRec
  | [] => [r]
  | s :: ss => if decide (r.year ≤ s.year) then r :: s :: ss else s :: insEnv r ss

/-- `ESGDataProcessor.get_environmental_data()` (no year filters): all
environment rows ordered by year. -/
def getEnvironmentalData (db : Db) : List EnvRec :=
  (db.envRows.foldr insEnv [])

/-- `x if x else 0` on an optional number (the `float` cast keeps the
value; `None`, `0` and `0.0` all give `0`). -/
def numOrZero (o : Option Rat) : Rat :=
  match o with
  | some x => if x == 0 then 0 else x
  | none => 0

/-- Largest year among the rows (only used on a non-empty list). -/
def maxYearOf : List EnvRec → Int
  | [] => 0
  | r :: rs => rs.foldl (fun a s => max a s.year) r.year

/-- List JVal to the embedded JSON list type. -/
def jlist : List JVal → JList
  | [] => .nil
  | v :: vs => .cons v (jlist vs)

/-- `ESGDataProcessor.calculate_environmental_metrics(env_df)`: empty
dict on an empty frame, otherwise the latest-year snapshot plus a
per-row trend list. -/
def calculateEnvironmentalMetrics (env : List EnvRec) : Obj :=
  match env with
  | [] => .nil
  | r0 :: rest =>
    let latestYear := maxYearOf (r0 :: rest)
    let latest := ((r0 :: rest).find? (fun r => r.year == latestYear)).getD r0
    let currentStatus : Obj :=
      .cons "latest_year" (.jnum latestYear)
      (.cons "energy_use" (.jnum (numOrZero latest.energy_use))
      (.cons "green_use" (.jnum (numOrZero latest.green_use))
      (.cons "renewable_yn" (optStr latest.renewable_yn)
      (.cons "renewable_ratio"
        (match latest.renewable_ratio with
         | some x => if x == 0 then .jnum 0 else .jnum x
         | none => .jnum 0) .nil))))
    let trends := (r0 :: rest).map (fun r =>
      JVal.jobj (.cons "year" (.jnum r.year)
        (.cons "energy_use" (.jnum (numOrZero r.energy_use))
        (.cons "green_use" (.jnum (numOrZero r.green_use)) .nil))))
    .cons "current_status" (.jobj currentStatus)
    (.cons "trends" (.jarr (jlist trends)) .nil)

/-- `ESGDataProcessor.calculate_social_metrics(emp_df)`. -/
def calculateSocialMetrics (emp : List EmpRec) : Obj :=
  match emp with
  | [] => .nil
  | _ :: _ =>
    let total := emp.length
    let male := (emp.filter (fun r => r.emp_gender == some "1")).length
    let female := (emp.filter (fun r => r.emp_gender == some "2")).length
    let board := emp.filter (fun r => r.emp_board_yn == some "Y")
    let boardMale := (board.filter (fun r => r.emp_gender == some "1")).length
    let boardFemale := (board.filter (fun r => r.emp_gender == some "2")).length
    let totalAcc : Int := (emp.map (fun r => r.emp_acident_cnt.getD 0)).foldl (· + ·) 0
    let zeroAcc := (emp.filter (fun r => r.emp_acident_cnt.getD 0 == 0)).length
    .cons "diversity" (.jobj
      (.cons "total_employees" (.jnum total)
      (.cons "male_count" (.jnum male)
      (.cons "female_count" (.jnum female)
      (.cons "female_ratio"
        (.jnum (if total = 0 then 0 else (female : Rat) / (total : Rat))) .nil)))))
    (.cons "board_composition" (.jobj
      (.cons "total_board_members" (.jnum board.length)
      (.cons "male_board_members" (.jnum boardMale)
      (.cons "female_board_members" (.jnum boardFemale)
      (.cons "female_board_ratio"
        (.jnum (if board.length = 0 then 0 else (boardFemale : Rat) / (board.length : Rat)))
        .nil)))))
    (.cons "safety" (.jobj
      (.cons "total_accidents" (.jnum totalAcc)
      (.cons "accident_rate"
        (.jnum (if total = 0 then 0 else (totalAcc : Rat) / (total : Rat)))
      (.cons "zero_accident_employees" (.jnum zeroAcc) .nil)))) .nil))

/-- `ESGDataProcessor.calculate_governance_metrics(company_info, emp_df)`. -/
def calculateGovernanceMetrics (companyInfo : Obj) (emp : List EmpRec) : Obj :=
  let board := emp.filter (fun r => r.emp_board_yn == some "Y")
  let boardFemale := (board.filter (fun r => r.emp_gender == some "2")).length
  .cons "basic_governance" (.jobj
    (.cons "external_directors" (companyInfo.pyGetD "cmp_extemp" (.jnum 0))
    (.cons "ethics_policy"
      (.jbool (companyInfo.pyGetD "cmp_ethics_yn" .jnull == .jstr "Y"))
    (.cons "compliance_policy"
      (.jbool (companyInfo.pyGetD "cmp_comp_yn" .jnull == .jstr "Y")) .nil))))
  (.cons "board" (.jobj
    (.cons "inside" (.jnum board.length)
    (.cons "outside" (companyInfo.pyGetD "cmp_extemp" (.jnum 0))
    (.cons "female" (.jnum boardFemale)
    (.cons "independent" (companyInfo.pyGetD "cmp_extemp" (.jnum 0)) .nil))))) .nil)

/-- `ESGDataProcessor.generate_comprehensive_report(cmp_num)` (no
branch argument; `now` is the clock reading used for the timestamp).
An unknown company yields the error dict; otherwise the assembled
report with its `company_info`, `data_summary` (also aliased as
`summary`) and `esg_metrics`. -/
def generateComprehensiveReport (db : Db) (cmp_num : String) (now : String) : Obj :=
  match getCompanyInfo db cmp_num with
  | none =>
    .cons "error" (.jstr ("회사 정보를 찾을 수 없습니다: " ++ cmp_num ++ " / -")) .nil
  | some info =>
    let emp := getEmployeeData db (some cmp_num)
    let env := getEnvironmentalData db
    let social := calculateSocialMetrics emp
    let envM := calculateEnvironmentalMetrics env
    let gov := calculateGovernanceMetrics info emp
    let dataSummary : Obj :=
      .cons "employee_count" (.jnum emp.length)
      (.cons "environmental_data_years" (.jnum env.length)
      (.cons "latest_env_year"
        (match env with
         | [] => .jnull
         | _ :: _ => .jnum (maxYearOf env)) .nil))
    .cons "company_info" (.jobj info)
    (.cons "report_generated_at" (.jstr now)
    (.cons "data_summary" (.jobj dataSummary)
    (.cons "summary" (.jobj dataSummary)
    (.cons "esg_metrics" (.jobj
      (.cons "environmental" (.jobj envM)
      (.cons "social" (.jobj social)
      (.cons "governance" (.jobj gov) .nil)))) .nil))))

/-- Extract the string stored in a JSON value (the source indexes
values it knows to be strings). -/
def jstrOf : JVal → String
  | .jstr s => s
  | _ => ""

/-! ### The four chatbot tools (`ESGReportChatbot._setup_tools`)

Each tool is a function from the store and its arguments to the reply
string and the store afterwards.  The first three only read; the report
tool adds and commits one `Report` row. -/

/-- Tool `get_company_esg_data`: the serialized `esg_metrics` of the
comprehensive report, or the report's error text. -/
def getCompanyEsgData (db : Db) (cmp_num : String) (now : String) : String × Db :=
  let rep := generateComprehensiveReport db cmp_num now
  if rep.hasKey "error" then (jstrOf (rep.pyGetD "error" (.jstr "")), db)
  else (String.mk (dumpsPretty (rep.pyGetD "esg_metrics" (.jobj .nil))), db)

/-- The reply of `analyze_esg_trends` when no environment rows exist. -/
def noTrendDataMsg : String := "환경 데이터가 없어 트렌드 분석을 수행할 수 없습니다."

/-- Tool `analyze_esg_trends`: the insufficiency message when the
environment frame is empty, otherwise the serialized environmental
metrics (the `cmp_num` and `category` arguments are unused by the
source body). -/
def analyzeEsgTrends (db : Db) (cmp_num : String) (category : String) : String × Db :=
  let env := getEnvironmentalData db
  match env with
  | [] => (noTrendDataMsg, db)
  | _ :: _ =>
    (String.mk (dumpsPretty (.jobj (calculateEnvironmentalMetrics env))), db)

/-- Tool `identify_data_gaps`: the source calls
`self.data_processor.identify_data_gaps(cmp_num)`, a method that does
not exist on `ESGDataProcessor`; the resulting `AttributeError` is
caught by the tool's handler, which returns the error text.  The store
is untouched. -/
def identifyDataGaps (db : Db) (cmp_num : String) : String × Db :=
  ("데이터 갭 분석 중 오류 발생: " ++ apos ++ "ESGDataProcessor" ++ apos ++
    " object has no attribute " ++ apos ++ "identify_data_gaps" ++ apos, db)

/-- Tool `generate_esg_report`: looks up the company, assembles the
comprehensive report, persists one `Report` row (`db.add` + `commit`)
and returns the serialized report — with no `report_id` or `status`
field. -/
def generateEsgReport (db : Db) (cmp_num : String) (report_type : String)
    (now : String) : String × Db :=
  match db.companies.find? (fun c => c.cmp_num == cmp_num) with
  | none => ("회사 정보를 찾을 수 없습니다.", db)
  | some company =>
    let rep := generateComprehensiveReport db cmp_num now
    if rep.hasKey "error" then (jstrOf (rep.pyGetD "error" (.jstr "")), db)
    else
      let newReport : ReportRec :=
        ⟨cmp_num, company.cmp_nm ++ " ESG 보고서 (" ++ report_type ++ ")",
         report_type, dumpsPlain (.jobj rep), "chatbot", "json"⟩
      (String.mk (dumpsPretty (.jobj rep)),
       { db with reports := db.reports ++ [newReport] })

/-- `ChatbotPage._handle_report_generation` after `json.loads` of the
tool reply: raises unless the parsed object carries
`status == "success"`, then raises unless it carries a truthy
`report_id`, which it returns. -/
def uiHandleReportGeneration (genRes : Obj) : Except String JVal :=
  if genRes.pyGetD "status" .jnull ≠ JVal.jstr "success" then
    .error ("보고서 생성 실패: " ++
      (match genRes.pyGetD "message" .jnull with
       | .jstr s => s
       | _ => "None"))
  else
    let rid := genRes.pyGetD "report_id" .jnull
    if !rid.pyTruthy then .error "보고서 ID를 받지 못했습니다." else .ok rid

/-! ### The LangGraph workflow engine
(`ESGReportChatbot._build_workflow` and its node functions)

The compiled graph is acyclic:
`START → analyze_intent → (no_company → handle_no_company → END
| has_company → load_company_context → check_data_availability →
(no_data → handle_no_data | has_data → execute_esg_tools →
generate_response) → save_conversation → END)`.
`runWorkflow` composes the node functions along these edges.  One
`llm.invoke` inside `_generate_response` is the only external
text-generation call; the run result counts them.  The `messages`
channel (system-message accumulation via `add_messages`) carries no
behaviour any claim touches and is omitted. -/

/-- The ephemeral per-message state `ESGAgentState`.  `uiSegment` is
the parsed `[UI 설정: ...]` payload embedded in the query (see
`classifyIntent`); `intent` starts as the empty string and is written
by the intent node (a UI-supplied intent is stored verbatim, hence the
`JVal` type). -/
structure AgentState where
  query : String
  uiSegment : Option Obj
  intent : JVal
  cmp_num : Option String
  company_context : Obj
  esg_data_summary : Obj
  tool_results : Obj
  response_content : String
  needs_data_collection : Bool
  report_generated : Bool
  session_id : String
  iteration_count : Nat
  ui_context : Obj
deriving DecidableEq

/-- The collaborators one workflow run depends on: the store, the
health of the data-processing collaborator (`false` makes its reads
raise, which every node catches), the outcome of the one external
generation call, whether the conversation-store commit succeeds, and
the clock reading. -/
structure ChatWorld where
  db : Db
  dbOk : Bool
  llmOutcome : Except String String
  storeOk : Bool
  now : String

/-- Python truthiness of the entity id (`state.get("cmp_num")`): absent
and empty string are both falsy. -/
def cmpNumTruthy : Option String → Bool
  | none => false
  | some c => !c.isEmpty

/-- Node `_analyze_intent`: writes the classified intent, replaces
`ui_context` by the parsed segment (or the empty dict — the context
passed into the initial state is discarded here), and resets the
iteration counter. -/
def analyzeIntentNode (s : AgentState) : AgentState :=
  { s with intent := classifyIntent s.query s.uiSegment,
           ui_context := s.uiSegment.getD .nil,
           iteration_count := 0 }

/-- Conditional edge `_decide_company_check`. -/
def decideCompanyCheck (s : AgentState) : String :=
  if cmpNumTruthy s.cmp_num then "has_company" else "no_company"

/-- The context dict `_load_company_context` builds from company info. -/
def contextOf (info : Obj) : Obj :=
  .cons "cmp_nm" (info.pyGetD "cmp_nm" .jnull)
  (.cons "cmp_industry" (info.pyGetD "cmp_industry" .jnull)
  (.cons "cmp_sector" (info.pyGetD "cmp_sector" .jnull)
  (.cons "cmp_addr" (info.pyGetD "cmp_addr" .jnull) .nil)))

/-- Node `_load_company_context`: the entity context, or the empty dict
when the id is falsy, the company unknown, or the collaborator raises
(caught and logged). -/
def loadCompanyContext (dbOk : Bool) (db : Db) (s : AgentState) : AgentState :=
  if !cmpNumTruthy s.cmp_num then { s with company_context := .nil }
  else if !dbOk then { s with company_context := .nil }
  else
    match getCompanyInfo db (s.cmp_num.getD "") with
    | some info => { s with company_context := contextOf info }
    | none => { s with company_context := .nil }

/-- Node `_check_data_availability`: probes employee and environment
data (the employee query is issued without a company filter, as in the
source); any collaborator error downgrades to
`needs_data_collection = True`. -/
def checkDataAvailability (dbOk : Bool) (db : Db) (s : AgentState) : AgentState :=
  if !cmpNumTruthy s.cmp_num then { s with needs_data_collection := true }
  else if !dbOk then { s with needs_data_collection := true }
  else
    let emp := getEmployeeData db none
    let env := getEnvironmentalData db
    let hasData := !emp.isEmpty || !env.isEmpty
    let summary : Obj :=
      if hasData then
        .cons "employee_count" (.jnum emp.length)
        (.cons "environmental_years" (.jnum env.length)
        (.cons "latest_env_year"
          (match env with
           | [] => .jnull
           | _ :: _ => .jnum (maxYearOf env)) .nil))
      else .nil
    { s with needs_data_collection := !hasData, esg_data_summary := summary }

/-- Conditional edge `_decide_data_availability`. -/
def decideDataAvailability (s : AgentState) : String :=
  if s.needs_data_collection then "no_data" else "has_data"

/-- Node `_execute_esg_tools`: dispatches on the intent string,
records the tool replies (and the requested category/period) in
`tool_results`, and threads the store through the report tool's side
effect.  Unknown intents (including `general_query`) run no tool. -/
def executeEsgTools (db : Db) (now : String) (s : AgentState) : AgentState × Db :=
  let selectedCategory := s.ui_context.pyGetD "selected_category" (.jstr "all")
  let selectedPeriod := s.ui_context.pyGetD "selected_period" (.jstr "current_year")
  if s.intent == .jstr "data_query" then
    let r := getCompanyEsgData db (s.cmp_num.getD "") now
    ({ s with tool_results :=
        (.cons "esg_data" (.jstr r.1)
          (.cons "requested_category" selectedCategory
          (.cons "requested_period" selectedPeriod .nil))) }, r.2)
  else if s.intent == .jstr "analysis_request" then
    let r := analyzeEsgTrends db (s.cmp_num.getD "") (jstrOf selectedCategory)
    let g := identifyDataGaps r.2 (s.cmp_num.getD "")
    ({ s with tool_results :=
        (.cons "trend_analysis" (.jstr r.1)
          (.cons "data_gaps" (.jstr g.1)
          (.cons "analysis_category" selectedCategory
          (.cons "analysis_period" selectedPeriod .nil)))) }, g.2)
  else if s.intent == .jstr "report_generation" then
    let reportType := if selectedCategory == .jstr "all" then "comprehensive"
      else "category_specific"
    let r := generateEsgReport db (s.cmp_num.getD "") reportType now
    ({ s with tool_results :=
        (.cons "generated_report" (.jstr r.1)
          (.cons "report_category" selectedCategory
          (.cons "report_period" selectedPeriod .nil))) }, r.2)
  else ({ s with tool_results := .nil }, db)

/-- Node `_generate_response`: one `llm.invoke`; an exception is caught
and turned into an in-band error message. -/
def generateResponseNode (llmOutcome : Except String String) (s : AgentState) : AgentState :=
  let content :=
    match llmOutcome with
    | .ok c => c
    | .error e => "응답 생성 중 오류가 발생했습니다: " ++ e
  { s with response_content := content,
           report_generated :=
             s.intent == .jstr "report_generation" &&
             s.tool_results.hasKey "generated_report" }

/-- The fixed guidance text of `_handle_no_company` (after `.strip()`). -/
def noCompanyResponse : String :=
  "ESG 분석과 보고서 생성을 위해 먼저 회사를 선택해 주세요.\n\n상단의 회사 선택 드롭다운에서 분석하고자 하는 회사를 선택하신 후 다시 질문해 주시기 바랍니다.\n\n새로운 회사를 등록하시려면 " ++ apos ++ "회사 관리" ++ apos ++ " 페이지를 이용해 주세요."

/-- Node `_handle_no_company`. -/
def handleNoCompany (s : AgentState) : AgentState :=
  { s with response_content := noCompanyResponse }


/-- The guidance text of `_handle_no_data` (after `.strip()`). -/
def noDataResponse (companyName : String) : String :=
  companyName ++ "의 ESG 데이터가 아직 등록되지 않았습니다.\n\nESG 보고서를 생성하기 위해서는 다음 데이터가 필요합니다:\n\n**환경(Environmental) 데이터:**\n- 에너지 사용량\n- 온실가스 배출량\n- 재생에너지 사용 비율\n\n**사회(Social) 데이터:**\n- 직원 정보 (성별, 이사회 참여, 산재 발생 등)\n- 직원 다양성 지표\n- 안전사고 현황\n\n**지배구조(Governance) 데이터:**\n- 사외이사 수\n- 윤리경영 정책\n- 컴플라이언스 현황\n\n데이터 입력 페이지에서 ESG 데이터를 먼저 등록해 주시기 바랍니다."

/-- Node `_handle_no_data`. -/
def handleNoData (s : AgentState) : AgentState :=
  { s with response_content :=
      noDataResponse (jstrOf (s.company_context.pyGetD "cmp_nm" (.jstr "선택된 회사"))) }

/-- Update every session row carrying the id (at most one exists). -/
def updateSessions (sid : String) (f : SessionRec → SessionRec) :
    List SessionRec → List SessionRec
  | [] => []
  | r :: rs =>
    if r.session_id == sid then f r :: updateSessions sid f rs
    else r :: updateSessions sid f rs

/-- The session row for an id. -/
def findSession (db : Db) (sid : String) : Option SessionRec :=
  db.sessions.find? (fun r => r.session_id == sid)

/-- The stored message list of a session. -/
def sessionMessages (db : Db) (sid : String) : List TurnMsg :=
  ((findSession db sid).map (fun r => r.messages)).getD []

/-- Node `_save_conversation`: a falsy session id or an unknown session
writes nothing; otherwise the user/assistant Turn pair is appended and
committed — and when the commit raises, the exception is caught and
logged and nothing is persisted.  The state passes through unchanged in
every case. -/
def saveConversation (storeOk : Bool) (now : String) (db : Db) (s : AgentState) :
    AgentState × Db :=
  if s.session_id.isEmpty then (s, db)
  else
    match findSession db s.session_id with
    | none => (s, db)
    | some sess =>
      if storeOk then
        let msgs := sess.messages ++
          [⟨"human", s.query, now⟩, ⟨"ai", s.response_content, now⟩]
        let upd : SessionRec → SessionRec := fun r =>
          { r with messages := msgs, message_count := msgs.length, last_activity := now }
        (s, { db with sessions := (updateSessions s.session_id upd db.sessions) })
      else (s, db)

/-- Which terminal path a run took. -/
inductive WorkflowBranch where
  | noCompany
  | noData
  | normal
deriving DecidableEq

/-- Observable outcome of one workflow run: the final state, the store
afterwards, how many external generation calls were made, and the path
taken. -/
structure WorkflowRun where
  state : AgentState
  db : Db
  llmCalls : Nat
  branch : WorkflowBranch
deriving DecidableEq

/-- One run of the compiled graph.  Note the `handle_no_company → END`
edge: the no-company terminal does not pass through
`save_conversation`. -/
def runWorkflowCore (db : Db) (dbOk : Bool) (llmOutcome : Except String String)
    (storeOk : Bool) (now : String) (s0 : AgentState) : WorkflowRun :=
  let s1 := analyzeIntentNode s0
  if decideCompanyCheck s1 == "no_company" then
    ⟨handleNoCompany s1, db, 0, .noCompany⟩
  else
    let s2 := loadCompanyContext dbOk db s1
    let s3 := checkDataAvailability dbOk db s2
    if decideDataAvailability s3 == "no_data" then
      let s4 := handleNoData s3
      let r := saveConversation storeOk now db s4
      ⟨r.1, r.2, 0, .noData⟩
    else
      let t := executeEsgTools db now s3
      let s5 := generateResponseNode llmOutcome t.1
      let r := saveConversation storeOk now t.2 s5
      ⟨r.1, r.2, 1, .normal⟩

/-- One run of the compiled graph driven by a `ChatWorld`. -/
def runWorkflow (w : ChatWorld) (s0 : AgentState) : WorkflowRun :=
  runWorkflowCore w.db w.dbOk w.llmOutcome w.storeOk w.now s0

/-- The state reaching the data-availability decision of a run. -/
def s3Of (w : ChatWorld) (s0 : AgentState) : AgentState :=
  checkDataAvailability w.dbOk w.db (loadCompanyContext w.dbOk w.db (analyzeIntentNode s0))

/-! ## Lemmas about the dict model -/

namespace JFields

theorem pyGet_replaceKey_self (k : String) (v : JVal) :
    ∀ (o : JFields), o.hasKey k = true → (o.replaceKey k v).pyGet k = some v
  | .nil, h => by simp [hasKey, pyGet] at h
  | .cons k' v' tl, h => by
    by_cases hk : k' = k
    · simp [replaceKey, hk, pyGet]
    · have h' : tl.hasKey k = true := by
        simpa [hasKey, pyGet, hk] using h
      simpa [replaceKey, hk, pyGet] using pyGet_replaceKey_self k v tl h'

theorem pyGet_append_of_none (g : JFields) (k : String) :
    ∀ (o : JFields), o.pyGet k = none → (o ++ g).pyGet k = g.pyGet k
  | .nil, _ => rfl
  | .cons k' v' tl, h => by
    by_cases hk : k' = k
    · simp [pyGet, hk] at h
    · have h' : tl.pyGet k = none := by simpa [pyGet, hk] using h
      have htl := pyGet_append_of_none g k tl h'
      show ((JFields.cons k' v' tl).append g).pyGet k = g.pyGet k
      simpa [JFields.append, pyGet, hk] using htl

/-- Looking up the key just written by `setKey` returns the new value. -/
theorem pyGet_setKey_self (o : JFields) (k : String) (v : JVal) :
    (o.setKey k v).pyGet k = some v := by
  unfold setKey
  by_cases h : o.hasKey k = true
  · simp [h, pyGet_replaceKey_self k v o h]
  · have hnone : o.pyGet k = none := by
      rcases hg : o.pyGet k with _ | w
      · rfl
      · exact absurd (by simp [hasKey, hg]) h
    simp [h, pyGet_append_of_none _ k o hnone, pyGet]

end JFields

/-- On an empty cache, `_enrich_with_guard` always computes: the lookup
misses and the three guarded calls are merged (or a malformed section
raises). -/
theorem enrichWithGuard_empty_eq (m : Obj) (oE oS oG : SectionOutcome) :
    enrichWithGuard [] m oE oS oG =
      (match asObjE (sectionRawVal m "environment"),
             asObjE (sectionRawVal m "social"),
             asObjE (sectionRawVal m "governance") with
       | .ok envRaw, .ok socRaw, .ok govRaw =>
         let enriched := mergeEnriched envRaw socRaw govRaw
           (withTimeout oE .nil) (withTimeout oS .nil) (withTimeout oG .nil)
         .ok ⟨enriched, [(cacheKey m, enriched)], 3⟩
       | _, _, _ => .error "TypeError") := rfl

/-- A failed or timed-out section call yields its fallback. -/
theorem withTimeout_fallback (o : SectionOutcome) (fb : Obj)
    (h : o.isFailure = true) : withTimeout o fb = fb := by
  cases o
  · simp [SectionOutcome.isFailure] at h
  · rfl
  · rfl

/-- C1: for every input metrics object and for every combination of the
three enrichment section calls succeeding, timing out, or raising, the
merged result returned by `_enrich_with_guard` contains all three
section keys and the summary key, and a failed or timed-out section
contributes the empty-object fallback under its `"ai"` key rather than
being absent. -/
theorem enrich_result_sections_and_fallbacks
    (m : Obj) (oE oS oG : SectionOutcome) (out : EnrichRun)
    (h : enrichWithGuard [] m oE oS oG = .ok out) :
    out.result.hasKey "environment" = true ∧
    out.result.hasKey "social" = true ∧
    out.result.hasKey "governance" = true ∧
    out.result.hasKey "summary" = true ∧
    (oE.isFailure = true → aiOf out.result "environment" = some (.jobj .nil)) ∧
    (oS.isFailure = true → aiOf out.result "social" = some (.jobj .nil)) ∧
    (oG.isFailure = true → aiOf out.result "governance" = some (.jobj .nil)) := by
  rw [enrichWithGuard_empty_eq] at h
  rcases hE : asObjE (sectionRawVal m "environment") with e1 | envRaw <;> rw [hE] at h
  all_goals rcases hS : asObjE (sectionRawVal m "social") with e2 | socRaw <;> rw [hS] at h
  all_goals rcases hG : asObjE (sectionRawVal m "governance") with e3 | govRaw <;> rw [hG] at h
  all_goals try exact Except.noConfusion h
  injection h with h2
  subst h2
  refine ⟨rfl, rfl, rfl, rfl, ?_, ?_, ?_⟩
  · intro hf
    rw [withTimeout_fallback oE .nil hf]
    show (envRaw.setKey "ai" (.jobj .nil)).pyGet "ai" = some (.jobj .nil)
    exact JFields.pyGet_setKey_self ..
  · intro hf
    rw [withTimeout_fallback oS .nil hf]
    show (socRaw.setKey "ai" (.jobj .nil)).pyGet "ai" = some (.jobj .nil)
    exact JFields.pyGet_setKey_self ..
  · intro hf
    rw [withTimeout_fallback oG .nil hf]
    show (govRaw.setKey "ai" (.jobj .nil)).pyGet "ai" = some (.jobj .nil)
    exact JFields.pyGet_setKey_self ..

/-- Witness for `enrich_result_sections_and_fallbacks`: empty raw
metrics, environment timed out, social raised, governance timed out. -/
theorem enrich_result_sections_and_fallbacks_witness :
    JFields.hasKey (mergeEnriched .nil .nil .nil .nil .nil .nil) "environment" = true ∧
    JFields.hasKey (mergeEnriched .nil .nil .nil .nil .nil .nil) "social" = true ∧
    JFields.hasKey (mergeEnriched .nil .nil .nil .nil .nil .nil) "governance" = true ∧
    JFields.hasKey (mergeEnriched .nil .nil .nil .nil .nil .nil) "summary" = true ∧
    aiOf (mergeEnriched .nil .nil .nil .nil .nil .nil) "environment" = some (.jobj .nil) ∧
    aiOf (mergeEnriched .nil .nil .nil .nil .nil .nil) "social" = some (.jobj .nil) ∧
    aiOf (mergeEnriched .nil .nil .nil .nil .nil .nil) "governance" = some (.jobj .nil) := by
  obtain ⟨h1, h2, h3, h4, f1, f2, f3⟩ :=
    enrich_result_sections_and_fallbacks .nil .timedOut .errored .timedOut
      ⟨mergeEnriched .nil .nil .nil .nil .nil .nil,
        [(cacheKey .nil, mergeEnriched .nil .nil .nil .nil .nil .nil)], 3⟩ rfl
  exact ⟨h1, h2, h3, h4, f1 rfl, f2 rfl, f3 rfl⟩

/-- A cache hit returns the stored merged dict immediately, with zero
external generation calls and an unchanged cache. -/
theorem enrichWithGuard_hit (c : EnrichCache) (m : Obj)
    (o1 o2 o3 : SectionOutcome) (r : Obj)
    (h : lookupCache c (cacheKey m) = some r) :
    enrichWithGuard c m o1 o2 o3 = .ok ⟨r, c, 0⟩ := by
  simp only [enrichWithGuard]
  rw [h]

/-- A successful run on the empty cache stored its own result under the
input's key and issued exactly three external calls. -/
theorem enrichWithGuard_empty_ok_shape (m : Obj) (oE oS oG : SectionOutcome)
    (out : EnrichRun) (h : enrichWithGuard [] m oE oS oG = .ok out) :
    out.cache = [(cacheKey m, out.result)] ∧ out.extCalls = 3 := by
  rw [enrichWithGuard_empty_eq] at h
  rcases hE : asObjE (sectionRawVal m "environment") with e1 | envRaw <;> rw [hE] at h
  all_goals rcases hS : asObjE (sectionRawVal m "social") with e2 | socRaw <;> rw [hS] at h
  all_goals rcases hG : asObjE (sectionRawVal m "governance") with e3 | govRaw <;> rw [hG] at h
  all_goals try exact Except.noConfusion h
  injection h with h2
  subst h2
  exact ⟨rfl, rfl⟩

/-- C4: calling `_enrich_with_guard` again with metrics identical to an
earlier (fresh) call returns the first call's merged result unchanged
and issues zero additional external generation calls, whatever the
section calls would have done this time. -/
theorem enrich_second_call_cached
    (m : Obj) (oE oS oG oE' oS' oG' : SectionOutcome) (out1 : EnrichRun)
    (h : enrichWithGuard [] m oE oS oG = .ok out1) :
    enrichWithGuard out1.cache m oE' oS' oG' = .ok ⟨out1.result, out1.cache, 0⟩ := by
  obtain ⟨hcache, _⟩ := enrichWithGuard_empty_ok_shape m oE oS oG out1 h
  apply enrichWithGuard_hit
  rw [hcache]
  simp [lookupCache]

/-- Witness for `enrich_second_call_cached`: empty raw metrics, a
successful environment section on the first call, all sections timing
out on the (never-issued) second call. -/
theorem enrich_second_call_cached_witness :
    enrichWithGuard
      [(cacheKey .nil,
        mergeEnriched .nil .nil .nil (.cons "executive_summary" (.jstr "good") .nil) .nil .nil)]
      .nil .timedOut .timedOut .timedOut =
    Except.ok
      ⟨mergeEnriched .nil .nil .nil (.cons "executive_summary" (.jstr "good") .nil) .nil .nil,
       [(cacheKey .nil,
         mergeEnriched .nil .nil .nil (.cons "executive_summary" (.jstr "good") .nil) .nil .nil)],
       0⟩ :=
  enrich_second_call_cached .nil
    (.success (.cons "executive_summary" (.jstr "good") .nil)) .errored .timedOut
    .timedOut .timedOut .timedOut
    ⟨mergeEnriched .nil .nil .nil (.cons "executive_summary" (.jstr "good") .nil) .nil .nil,
     [(cacheKey .nil,
       mergeEnriched .nil .nil .nil (.cons "executive_summary" (.jstr "good") .nil) .nil .nil)],
     3⟩ rfl

/-! ## The cache key is a truncated serialization -/

theorem escList_append (a b : List Char) :
    escList (a ++ b) = escList a ++ escList b := by
  induction a with
  | nil => rfl
  | cons c cs ih => simp [escList, ih]

theorem escList_replicate_x (n : Nat) :
    escList (List.replicate n 'x') = List.replicate n 'x' := by
  induction n with
  | zero => rfl
  | succ k ih => simp [List.replicate_succ, escList, ih]; rfl

theorem escList_longX : escList longX = longX := escList_replicate_x 20000

theorem length_longX : longX.length = 20000 := List.length_replicate ..

theorem take_longX : longX.take 19974 = List.replicate 19974 'x' := by
  show (List.replicate 20000 'x').take 19974 = _
  rw [List.take_replicate, Nat.min_eq_left (by omega)]

theorem escList_singleton (c : Char) : escList [c] = escC c := by
  show escC c ++ escList [] = escC c
  show escC c ++ ([] : List Char) = escC c
  exact List.append_nil _

theorem canonV_noteMetrics (c : Char) :
    canonV (.jobj (noteMetrics c)) = .jobj (noteMetrics c) := rfl

/-- Canonical serialization of the long-note metrics: the 26-character
stem, then the 20000 `'x'` characters, then the distinguishing
character and the closing quote and braces. -/
theorem dumpsSorted_noteMetrics (c : Char) :
    dumpsSorted (.jobj (noteMetrics c)) =
      keyStem ++ (longX ++ (escC c ++ ['"', '}', '}'])) := by
  show serVA (canonV (.jobj (noteMetrics c))) [] = _
  rw [canonV_noteMetrics]
  show '{' :: '"' :: 'e' :: 'n' :: 'v' :: 'i' :: 'r' :: 'o' :: 'n' :: 'm' :: 'e' :: 'n' :: 't' ::
      '"' :: ':' :: ' ' :: '{' :: '"' :: 'n' :: 'o' :: 't' :: 'e' :: '"' :: ':' :: ' ' :: '"' ::
      (escList (longX ++ [c]) ++ ('"' :: '}' :: '}' :: [])) = _
  rw [escList_append, escList_longX, escList_singleton,
    List.append_assoc longX (escC c) ('"' :: '}' :: '}' :: [])]
  rfl

theorem keyStem_length : keyStem.length = 26 := by decide

/-- The cache key of the long-note metrics does not depend on the
distinguishing character: truncation cuts the serialization inside the
run of `'x'`. -/
theorem cacheKey_noteMetrics (c : Char) :
    cacheKey (noteMetrics c) = keyStem ++ List.replicate 19974 'x' := by
  show (dumpsSorted (.jobj (noteMetrics c))).take 20000 = _
  rw [dumpsSorted_noteMetrics c, List.take_append_eq_append_take,
    List.take_of_length_le (by rw [keyStem_length]; omega), keyStem_length,
    List.take_append_eq_append_take, length_longX,
    show (20000 - 26 : Nat) = 19974 from rfl,
    show (19974 - 20000 : Nat) = 0 from rfl,
    List.take_zero, List.append_nil, take_longX]

theorem longX_append_ne : longX ++ ['y'] ≠ longX ++ ['z'] := by
  intro h
  have h2 := congrArg (fun l => l.drop longX.length) h
  simp only [List.drop_left] at h2
  exact absurd h2 (by decide)

/-- A cache miss computes freshly: three external calls are issued (one
per section) and the merged result is stored under the input's key. -/
theorem enrichWithGuard_miss_shape (c : EnrichCache) (m : Obj)
    (oE oS oG : SectionOutcome) (out : EnrichRun)
    (hmiss : lookupCache c (cacheKey m) = none)
    (h : enrichWithGuard c m oE oS oG = .ok out) :
    out.extCalls = 3 ∧ out.cache = (cacheKey m, out.result) :: c := by
  simp only [enrichWithGuard] at h
  rw [hmiss] at h
  rcases hE : asObjE (sectionRawVal m "environment") with e1 | envRaw <;> rw [hE] at h
  all_goals rcases hS : asObjE (sectionRawVal m "social") with e2 | socRaw <;> rw [hS] at h
  all_goals rcases hG : asObjE (sectionRawVal m "governance") with e3 | govRaw <;> rw [hG] at h
  all_goals try exact Except.noConfusion h
  injection h with h2
  subst h2
  exact ⟨rfl, rfl⟩

/-- C5 counterexample: the claim that the cache never returns a result
stored for a different input fails.  `noteMetrics 'y'` and
`noteMetrics 'z'` are different metrics objects (their serializations
first differ beyond position 20000), yet after enriching the first, a
call for the second hits the cache (zero external calls) and returns
the merged result computed and stored for the first — which differs
from the second input's own merged result. -/
theorem enrich_cache_cross_input_hit :
    noteMetrics 'y' ≠ noteMetrics 'z' ∧
    enrichWithGuard [] (noteMetrics 'y') .timedOut .timedOut .timedOut =
      .ok ⟨mergeEnriched (rawNote 'y') .nil .nil .nil .nil .nil,
           [(cacheKey (noteMetrics 'y'), mergeEnriched (rawNote 'y') .nil .nil .nil .nil .nil)],
           3⟩ ∧
    enrichWithGuard
        [(cacheKey (noteMetrics 'y'), mergeEnriched (rawNote 'y') .nil .nil .nil .nil .nil)]
        (noteMetrics 'z') .timedOut .timedOut .timedOut =
      .ok ⟨mergeEnriched (rawNote 'y') .nil .nil .nil .nil .nil,
           [(cacheKey (noteMetrics 'y'), mergeEnriched (rawNote 'y') .nil .nil .nil .nil .nil)],
           0⟩ ∧
    mergeEnriched (rawNote 'y') .nil .nil .nil .nil .nil ≠
      mergeEnriched (rawNote 'z') .nil .nil .nil .nil .nil := by
  refine ⟨?_, rfl, ?_, ?_⟩
  · intro h
    injection h with hk hv ht
    injection hv with hf
    injection hf with hk2 hv2 ht2
    injection hv2 with hs
    injection hs with hdata
    exact longX_append_ne hdata
  · apply enrichWithGuard_hit
    rw [cacheKey_noteMetrics 'z', ← cacheKey_noteMetrics 'y']
    simp [lookupCache]
  · intro h
    injection h with hk hv ht
    injection hv with hf
    injection hf with hk2 hv2 ht2
    injection hv2 with hs
    injection hs with hdata
    exact longX_append_ne hdata

/-- C5 amended: the cache is addressed by the truncated serialization
key, not by the full input: after a fresh run for `m1`, a lookup for
any `m2` whose truncated key differs misses, and a second call for
`m2` computes freshly (three external calls, its own result stored
under its own key).  Inputs whose serializations agree on the first
20000 characters share a cache slot (`enrich_cache_cross_input_hit`
shows this is reachable). -/
theorem enrich_cache_addressed_by_truncated_key
    (m1 m2 : Obj) (oE oS oG o1 o2 o3 : SectionOutcome) (out1 out2 : EnrichRun)
    (h1 : enrichWithGuard [] m1 oE oS oG = .ok out1)
    (hk : cacheKey m2 ≠ cacheKey m1)
    (h2 : enrichWithGuard out1.cache m2 o1 o2 o3 = .ok out2) :
    lookupCache out1.cache (cacheKey m2) = none ∧
    out2.extCalls = 3 ∧ out2.cache = (cacheKey m2, out2.result) :: out1.cache := by
  obtain ⟨hcache, _⟩ := enrichWithGuard_empty_ok_shape m1 oE oS oG out1 h1
  have hfalse : (cacheKey m1 == cacheKey m2) = false := by
    rw [beq_eq_false_iff_ne]
    exact fun e => hk e.symm
  have hnone : lookupCache out1.cache (cacheKey m2) = none := by
    rw [hcache]
    simp [lookupCache, List.find?, hfalse]
  obtain ⟨hcalls, hcache2⟩ :=
    enrichWithGuard_miss_shape out1.cache m2 o1 o2 o3 out2 hnone h2
  exact ⟨hnone, hcalls, hcache2⟩

/-- Witness for `enrich_cache_addressed_by_truncated_key`: empty
metrics enriched first, then metrics with one numeric entry. -/
theorem enrich_cache_addressed_by_truncated_key_witness :
    lookupCache
      [(cacheKey .nil, mergeEnriched .nil .nil .nil .nil .nil .nil)]
      (cacheKey (.cons "a" (.jnum 1) .nil)) = none ∧
    (3 : Nat) = 3 ∧
    ((cacheKey (.cons "a" (.jnum 1) .nil), mergeEnriched .nil .nil .nil .nil .nil .nil) ::
      [(cacheKey .nil, mergeEnriched .nil .nil .nil .nil .nil .nil)] : EnrichCache) =
      (cacheKey (.cons "a" (.jnum 1) .nil), mergeEnriched .nil .nil .nil .nil .nil .nil) ::
      [(cacheKey .nil, mergeEnriched .nil .nil .nil .nil .nil .nil)] := by
  have h := enrich_cache_addressed_by_truncated_key .nil (.cons "a" (.jnum 1) .nil)
    .timedOut .timedOut .timedOut .timedOut .timedOut .timedOut
    ⟨mergeEnriched .nil .nil .nil .nil .nil .nil,
     [(cacheKey .nil, mergeEnriched .nil .nil .nil .nil .nil .nil)], 3⟩
    ⟨mergeEnriched .nil .nil .nil .nil .nil .nil,
     (cacheKey (.cons "a" (.jnum 1) .nil), mergeEnriched .nil .nil .nil .nil .nil .nil) ::
       [(cacheKey .nil, mergeEnriched .nil .nil .nil .nil .nil .nil)], 3⟩
    rfl (by decide) rfl
  exact h

/-! ## Intent classification and response-generator fallback -/

/-- `Char.toLower` never produces the uppercase letter `U`: a basic
latin capital is shifted into `a`-`z`, and any other character is
returned unchanged — and `U` itself is a basic latin capital. -/
theorem toLower_ne_U (c : Char) : Char.toLower c ≠ 'U' := by
  intro h
  have ht : (Char.toLower c).toNat = 85 := by rw [h]; decide
  simp only [Char.toLower] at ht
  by_cases hr : c.toNat ≥ 65 ∧ c.toNat ≤ 90
  · rw [if_pos hr] at ht
    have hv : (c.toNat + 32).isValidChar := Or.inl (by omega)
    have hofn : Char.ofNat (c.toNat + 32) = Char.ofNatAux (c.toNat + 32) hv := by
      unfold Char.ofNat
      exact dif_pos hv
    rw [hofn] at ht
    rw [show (Char.ofNatAux (c.toNat + 32) hv).toNat = c.toNat + 32 from rfl] at ht
    omega
  · rw [if_neg hr] at ht
    exact hr ⟨by omega, by omega⟩

/-- No lowercased character list matches a pattern whose second
character is `U` at its head. -/
theorem headMatch_map_toLower_marker (l rest : List Char) :
    headMatch (l.map Char.toLower) ('[' :: 'U' :: rest) = false := by
  match l with
  | [] => rfl
  | [a] =>
    show ((Char.toLower a == '[') && headMatch [] ('U' :: rest)) = false
    rw [show headMatch [] ('U' :: rest) = false from rfl, Bool.and_false]
  | a :: b :: t =>
    show ((Char.toLower a == '[') &&
        ((Char.toLower b == 'U') && headMatch (t.map Char.toLower) rest)) = false
    rw [show (Char.toLower b == 'U') = false from beq_eq_false_iff_ne.mpr (toLower_ne_U b),
        Bool.false_and, Bool.and_false]

/-- A lowercased character list contains no substring starting with
`[U`. -/
theorem hasSub_map_toLower_marker (l rest : List Char) :
    hasSub (l.map Char.toLower) ('[' :: 'U' :: rest) = false := by
  induction l with
  | nil => rfl
  | cons a t ih =>
    show (headMatch ((a :: t).map Char.toLower) ('[' :: 'U' :: rest) ||
        hasSub (t.map Char.toLower) ('[' :: 'U' :: rest)) = false
    rw [headMatch_map_toLower_marker, ih, Bool.or_false]

/-- The UI-context marker can never occur in a lowercased query: the
guard of the UI-override branch of `_analyze_intent` is always false,
so the branch is dead code. -/
theorem strIn_uiMarker_toLower (s : String) : strIn uiMarker (toLowerStr s) = false := by
  show hasSub (s.data.map Char.toLower) uiMarker.data = false
  rw [show uiMarker.data = '[' :: 'U' :: ('I' :: ' ' :: '설' :: '정' :: ':' :: []) from rfl]
  exact hasSub_map_toLower_marker s.data _

/-- The workflow classifier never uses a UI context: it always reduces
to the keyword decision over the lowercased query. -/
theorem classifyIntent_eq_keyword (q : String) (uiParse : Option Obj) :
    classifyIntent q uiParse = .jstr (keywordIntent (toLowerStr q)) := by
  simp only [classifyIntent, strIn_uiMarker_toLower, Bool.false_eq_true, if_false]
  rfl

/-- C6 counterexample: the UI-selected intent is never returned
verbatim — `_analyze_intent` lowercases the query before searching for
the marker `"[UI 설정:"`, whose uppercase `U` cannot survive
lowercasing, so even a query carrying the marker and a truthy parsed
`selected_intent` is classified by keywords; and the legacy classifier
checks data-query keywords before report keywords, so a message with
both resolves to `data_query`, not `report_generation`. -/
theorem ui_intent_dead_and_legacy_data_first :
    classifyIntent "[UI 설정: selected_intent=data_query] 보고서 보여줘"
      (some (.cons "selected_intent" (.jstr "data_query") .nil)) =
      .jstr "report_generation" ∧
    (.cons "selected_intent" (.jstr "data_query") .nil : Obj).pyGetD
      "selected_intent" .jnull = .jstr "data_query" ∧
    JVal.jstr "report_generation" ≠ .jstr "data_query" ∧
    legacyIntentType "show me the report" = "data_query" ∧
    "data_query" ≠ "report_generation" := by
  refine ⟨by decide, by decide, by decide, by decide, by decide⟩

/-- C6 amended: intent classification is total and keyword-driven
only.  The workflow classifier ignores any UI-selected intent (the
marker check runs on the lowercased query and never fires), and its
keyword priority is report, then data-query, then analysis, with
`general_query` as default — never an error; the legacy classifier
checks data-query keywords first, so any message with a data keyword is
`data_query` there even when report keywords also match. -/
theorem intent_classification_keyword_driven (q : String) (uiParse : Option Obj) :
    classifyIntent q uiParse = .jstr (keywordIntent (toLowerStr q)) ∧
    (kwAny reportKeywords (toLowerStr q) = true →
      classifyIntent q uiParse = .jstr "report_generation") ∧
    (kwAny reportKeywords (toLowerStr q) = false →
      kwAny dataKeywords (toLowerStr q) = true →
      classifyIntent q uiParse = .jstr "data_query") ∧
    (kwAny reportKeywords (toLowerStr q) = false →
      kwAny dataKeywords (toLowerStr q) = false →
      kwAny analysisKeywords (toLowerStr q) = true →
      classifyIntent q uiParse = .jstr "analysis_request") ∧
    (kwAny reportKeywords (toLowerStr q) = false →
      kwAny dataKeywords (toLowerStr q) = false →
      kwAny analysisKeywords (toLowerStr q) = false →
      classifyIntent q uiParse = .jstr "general_query") ∧
    (kwAny legacyDataKeywords (toLowerStr q) = true →
      legacyIntentType q = "data_query") := by
  have hbase : classifyIntent q uiParse = .jstr (keywordIntent (toLowerStr q)) :=
    classifyIntent_eq_keyword q uiParse
  refine ⟨hbase, ?_, ?_, ?_, ?_, ?_⟩
  · intro h1
    rw [hbase]
    simp [keywordIntent, h1]
  · intro h1 h2
    rw [hbase]
    simp [keywordIntent, h1, h2]
  · intro h1 h2 h3
    rw [hbase]
    simp [keywordIntent, h1, h2, h3]
  · intro h1 h2 h3
    rw [hbase]
    simp [keywordIntent, h1, h2, h3]
  · intro h1
    simp [legacyIntentType, h1]

/-- Witness for `intent_classification_keyword_driven`: a marked query
with a truthy UI intent still lands in the keyword branch, every
keyword branch fires (including a query carrying both report and data
keywords, resolved to report generation), the default fires, and the
legacy classifier resolves a report+data message to `data_query`. -/
theorem intent_classification_keyword_driven_witness :
    classifyIntent "[UI 설정: selected_intent=benchmarking] 데이터 보여줘"
      (some (.cons "selected_intent" (.jstr "benchmarking") .nil)) = .jstr "data_query" ∧
    classifyIntent "보고서 수치 보여줘" none = .jstr "report_generation" ∧
    classifyIntent "데이터 분석 해줘" none = .jstr "data_query" ∧
    classifyIntent "트렌드 알려줘" none = .jstr "analysis_request" ∧
    classifyIntent "hello there" none = .jstr "general_query" ∧
    legacyIntentType "show me the report" = "data_query" :=
  ⟨(intent_classification_keyword_driven "[UI 설정: selected_intent=benchmarking] 데이터 보여줘"
      (some (.cons "selected_intent" (.jstr "benchmarking") .nil))).2.2.1
      (by decide) (by decide),
   (intent_classification_keyword_driven "보고서 수치 보여줘" none).2.1 (by decide),
   (intent_classification_keyword_driven "데이터 분석 해줘" none).2.2.1
      (by decide) (by decide),
   (intent_classification_keyword_driven "트렌드 알려줘" none).2.2.2.1
      (by decide) (by decide) (by decide),
   (intent_classification_keyword_driven "hello there" none).2.2.2.2.1
      (by decide) (by decide) (by decide),
   (intent_classification_keyword_driven "show me the report" none).2.2.2.2.2
      (by decide)⟩

/-- C7: when the external text-generation call fails — the model is not
configured, or the call raises (network error or malformed output) —
the response generator returns the deterministic keyword-selected
fallback for the input and never surfaces the exception (the handler is
a total function into strings); for the input "show me data" the
fallback is the one associated with the data keywords, and it is a
non-empty answer. -/
theorem generator_failure_deterministic_fallback
    (prompt : String) (err : String) (outcome : Except String String) :
    generateResponseLC false outcome prompt = fallbackResponse prompt ∧
    generateResponseLC true (.error err) prompt = fallbackResponse prompt ∧
    fallbackResponse "show me data" = dataFallback ∧
    dataFallback ≠ "" := by
  refine ⟨rfl, rfl, by decide, by decide⟩

/-! ## Trend analysis and report tool -/

/-- A serialized metrics object never equals the insufficiency message
(it starts with a brace, the message with a Korean syllable). -/
theorem calcEnv_dump_ne_noTrend (r : EnvRec) (rest : List EnvRec) :
    String.mk (dumpsPretty (.jobj (calculateEnvironmentalMetrics (r :: rest)))) ≠
      noTrendDataMsg := by
  intro h
  have h2 : (dumpsPretty (.jobj (calculateEnvironmentalMetrics (r :: rest)))).head? =
      noTrendDataMsg.data.head? := congrArg (fun s => s.data.head?) h
  rw [show (dumpsPretty (.jobj (calculateEnvironmentalMetrics (r :: rest)))).head? =
      some '{' from rfl] at h2
  exact absurd h2 (by decide)

/-- C8 amended: the trend tool returns the insufficient-data message
exactly when zero environmental rows exist; with one or more rows —
including a single data point — it returns the serialized trend
summary, never the failure message. -/
theorem analyze_trends_fails_only_when_empty
    (db : Db) (cmp_num category : String) :
    (getEnvironmentalData db = [] →
      analyzeEsgTrends db cmp_num category = (noTrendDataMsg, db)) ∧
    (getEnvironmentalData db ≠ [] →
      analyzeEsgTrends db cmp_num category =
        (String.mk (dumpsPretty
          (.jobj (calculateEnvironmentalMetrics (getEnvironmentalData db)))), db) ∧
      (analyzeEsgTrends db cmp_num category).1 ≠ noTrendDataMsg) := by
  constructor
  · intro h
    simp only [analyzeEsgTrends, h]
  · intro h
    rcases henv : getEnvironmentalData db with _ | ⟨r, rest⟩
    · exact absurd henv h
    · refine ⟨by simp only [analyzeEsgTrends, henv], ?_⟩
      simp only [analyzeEsgTrends, henv]
      exact calcEnv_dump_ne_noTrend r rest

/-- C8 counterexample: with exactly one environmental data point (fewer
than 2), the tool does not fail with the insufficiency message — it
returns the trend summary. -/
theorem analyze_trends_single_point_no_failure :
    (getEnvironmentalData
      ⟨[], [], [⟨2023, some 100, some 50, some "Y", some 30⟩], [], []⟩).length = 1 ∧
    (1 : Nat) < 2 ∧
    (analyzeEsgTrends
      ⟨[], [], [⟨2023, some 100, some 50, some "Y", some 30⟩], [], []⟩
      "6182618882" "all").1 ≠ noTrendDataMsg := by
  refine ⟨rfl, by decide, by decide⟩

/-- Witness for `analyze_trends_fails_only_when_empty`: an empty store
takes the failure branch, a one-row store takes the summary branch. -/
theorem analyze_trends_fails_only_when_empty_witness :
    analyzeEsgTrends ⟨[], [], [], [], []⟩ "6182618882" "all" =
      (noTrendDataMsg, ⟨[], [], [], [], []⟩) ∧
    (analyzeEsgTrends
      ⟨[], [], [⟨2023, some 100, some 50, some "Y", some 30⟩], [], []⟩
      "6182618882" "all").1 ≠ noTrendDataMsg :=
  ⟨(analyze_trends_fails_only_when_empty ⟨[], [], [], [], []⟩ "6182618882" "all").1 rfl,
   ((analyze_trends_fails_only_when_empty
      ⟨[], [], [⟨2023, some 100, some 50, some "Y", some 30⟩], [], []⟩
      "6182618882" "all").2 (by decide)).2⟩

set_option maxRecDepth 40000 in
/-- C9: the report tool is the only tool with a side effect — it
persists exactly one report row — but its reply is the serialized
comprehensive report, which carries no `report_id` and no `status`
field, so the UI caller that demands them
(`_handle_report_generation`) rejects every successful generation with
`보고서 생성 실패: None`.  The other three tools leave the store
unchanged. -/
theorem generate_report_no_report_id_sole_side_effect :
    ((generateEsgReport
        ⟨[⟨"6182618882", none, "테스트회사", none, none, none, some 2, some "Y", some "N"⟩],
         [⟨some "1", some "Y", some 0, some "6182618882"⟩],
         [⟨2023, some 100, some 50, some "Y", some 30⟩], [], []⟩
        "6182618882" "comprehensive" "2024-01-01T00:00:00").2).reports.length = 1 ∧
    (generateEsgReport
        ⟨[⟨"6182618882", none, "테스트회사", none, none, none, some 2, some "Y", some "N"⟩],
         [⟨some "1", some "Y", some 0, some "6182618882"⟩],
         [⟨2023, some 100, some 50, some "Y", some 30⟩], [], []⟩
        "6182618882" "comprehensive" "2024-01-01T00:00:00").1 =
      String.mk (dumpsPretty (.jobj (generateComprehensiveReport
        ⟨[⟨"6182618882", none, "테스트회사", none, none, none, some 2, some "Y", some "N"⟩],
         [⟨some "1", some "Y", some 0, some "6182618882"⟩],
         [⟨2023, some 100, some 50, some "Y", some 30⟩], [], []⟩
        "6182618882" "2024-01-01T00:00:00"))) ∧
    (generateComprehensiveReport
        ⟨[⟨"6182618882", none, "테스트회사", none, none, none, some 2, some "Y", some "N"⟩],
         [⟨some "1", some "Y", some 0, some "6182618882"⟩],
         [⟨2023, some 100, some 50, some "Y", some 30⟩], [], []⟩
        "6182618882" "2024-01-01T00:00:00").hasKey "report_id" = false ∧
    (generateComprehensiveReport
        ⟨[⟨"6182618882", none, "테스트회사", none, none, none, some 2, some "Y", some "N"⟩],
         [⟨some "1", some "Y", some 0, some "6182618882"⟩],
         [⟨2023, some 100, some 50, some "Y", some 30⟩], [], []⟩
        "6182618882" "2024-01-01T00:00:00").hasKey "status" = false ∧
    uiHandleReportGeneration
      (generateComprehensiveReport
        ⟨[⟨"6182618882", none, "테스트회사", none, none, none, some 2, some "Y", some "N"⟩],
         [⟨some "1", some "Y", some 0, some "6182618882"⟩],
         [⟨2023, some 100, some 50, some "Y", some 30⟩], [], []⟩
        "6182618882" "2024-01-01T00:00:00") = .error "보고서 생성 실패: None" ∧
    (∀ (db : Db) (n now : String), (getCompanyEsgData db n now).2 = db) ∧
    (∀ (db : Db) (n cat : String), (analyzeEsgTrends db n cat).2 = db) ∧
    (∀ (db : Db) (n : String), (identifyDataGaps db n).2 = db) := by
  refine ⟨rfl, rfl, rfl, rfl, rfl, ?_, ?_, ?_⟩
  · intro db n now
    simp only [getCompanyEsgData]
    split <;> rfl
  · intro db n cat
    simp only [analyzeEsgTrends]
    split <;> rfl
  · intro db n
    rfl

/-! ## Workflow lemmas -/

theorem fst_saveConversation (storeOk : Bool) (now : String) (db : Db) (s : AgentState) :
    (saveConversation storeOk now db s).1 = s := by
  unfold saveConversation
  split
  · rfl
  · split
    · rfl
    · split <;> rfl

theorem snd_saveConversation_not_ok (now : String) (db : Db) (s : AgentState) :
    (saveConversation false now db s).2 = db := by
  unfold saveConversation
  split
  · rfl
  · split
    · rfl
    · rfl

theorem find?_updateSessions (sid : String) (msgs : List TurnMsg) (now : String) :
    ∀ l : List SessionRec,
      (updateSessions sid
        (fun r => { r with messages := msgs, message_count := msgs.length, last_activity := now })
        l).find? (fun r => r.session_id == sid) =
        (l.find? (fun r => r.session_id == sid)).map
          (fun r => { r with messages := msgs, message_count := msgs.length, last_activity := now })
  | [] => rfl
  | r :: rs => by
    by_cases h : (r.session_id == sid) = true
    · simp only [updateSessions, h, if_true, List.find?_cons]
      simp [h]
    · simp only [updateSessions, h, if_false, List.find?_cons]
      simp only [Bool.not_eq_true] at h
      simp [h, find?_updateSessions sid msgs now rs]

/-- With a nonempty session id, an existing session, and a successful
commit, `_save_conversation` passes the state through and appends
exactly the user/assistant Turn pair to the session's messages. -/
theorem saveConversation_appends (now : String) (db : Db) (s : AgentState)
    (sess : SessionRec)
    (hsid : s.session_id.isEmpty = false)
    (hsess : findSession db s.session_id = some sess) :
    (saveConversation true now db s).1 = s ∧
    sessionMessages (saveConversation true now db s).2 s.session_id =
      sessionMessages db s.session_id ++
        [⟨"human", s.query, now⟩, ⟨"ai", s.response_content, now⟩] := by
  refine ⟨fst_saveConversation true now db s, ?_⟩
  unfold saveConversation
  rw [hsid]
  simp only [Bool.false_eq_true, if_false, hsess]
  rw [if_pos trivial]
  show sessionMessages
    { db with sessions := updateSessions s.session_id _ db.sessions } s.session_id = _
  unfold sessionMessages findSession
  show (((updateSessions s.session_id _ db.sessions).find?
      (fun r => r.session_id == s.session_id)).map (fun r => r.messages)).getD [] = _
  rw [find?_updateSessions s.session_id _ now db.sessions]
  unfold findSession at hsess
  rw [hsess]
  rfl

theorem snd_getCompanyEsgData (db : Db) (n now : String) :
    (getCompanyEsgData db n now).2 = db := by
  simp only [getCompanyEsgData]
  split <;> rfl

theorem snd_analyzeEsgTrends (db : Db) (n cat : String) :
    (analyzeEsgTrends db n cat).2 = db := by
  simp only [analyzeEsgTrends]
  split <;> rfl

theorem sessions_generateEsgReport (db : Db) (n t now : String) :
    ((generateEsgReport db n t now).2).sessions = db.sessions := by
  simp only [generateEsgReport]
  split
  · rfl
  · split <;> rfl

theorem sessions_executeEsgTools (db : Db) (now : String) (s : AgentState) :
    ((executeEsgTools db now s).2).sessions = db.sessions := by
  simp only [executeEsgTools]
  split
  · rw [snd_getCompanyEsgData]
  · split
    · simp only [identifyDataGaps]
      rw [snd_analyzeEsgTrends]
    · split
      · rw [sessions_generateEsgReport]
      · rfl

theorem sid_query_loadCompanyContext (dbOk : Bool) (db : Db) (s : AgentState) :
    (loadCompanyContext dbOk db s).session_id = s.session_id ∧
    (loadCompanyContext dbOk db s).query = s.query := by
  unfold loadCompanyContext
  split
  · exact ⟨rfl, rfl⟩
  · split
    · exact ⟨rfl, rfl⟩
    · split <;> exact ⟨rfl, rfl⟩

theorem sid_query_checkDataAvailability (dbOk : Bool) (db : Db) (s : AgentState) :
    (checkDataAvailability dbOk db s).session_id = s.session_id ∧
    (checkDataAvailability dbOk db s).query = s.query := by
  unfold checkDataAvailability
  split
  · exact ⟨rfl, rfl⟩
  · split
    · exact ⟨rfl, rfl⟩
    · exact ⟨rfl, rfl⟩

theorem sid_query_s3Of (w : ChatWorld) (s0 : AgentState) :
    (s3Of w s0).session_id = s0.session_id ∧ (s3Of w s0).query = s0.query := by
  unfold s3Of
  obtain ⟨h1, h2⟩ := sid_query_checkDataAvailability w.dbOk w.db
    (loadCompanyContext w.dbOk w.db (analyzeIntentNode s0))
  obtain ⟨h3, h4⟩ := sid_query_loadCompanyContext w.dbOk w.db (analyzeIntentNode s0)
  exact ⟨h1.trans h3, h2.trans h4⟩

theorem sid_query_executeEsgTools (db : Db) (now : String) (s : AgentState) :
    ((executeEsgTools db now s).1).session_id = s.session_id ∧
    ((executeEsgTools db now s).1).query = s.query := by
  unfold executeEsgTools
  split
  · exact ⟨rfl, rfl⟩
  · split
    · exact ⟨rfl, rfl⟩
    · split <;> exact ⟨rfl, rfl⟩

theorem runWorkflow_eq_noCompany (w : ChatWorld) (s0 : AgentState)
    (h : cmpNumTruthy s0.cmp_num = false) :
    runWorkflow w s0 = ⟨handleNoCompany (analyzeIntentNode s0), w.db, 0, .noCompany⟩ := by
  have h1 : (decideCompanyCheck (analyzeIntentNode s0) == "no_company") = true := by
    simp [decideCompanyCheck, analyzeIntentNode, h]
  simp [runWorkflow, runWorkflowCore, h1]

theorem runWorkflow_eq_noData (w : ChatWorld) (s0 : AgentState)
    (h : cmpNumTruthy s0.cmp_num = true)
    (hnd : (s3Of w s0).needs_data_collection = true) :
    runWorkflow w s0 =
      ⟨(saveConversation w.storeOk w.now w.db (handleNoData (s3Of w s0))).1,
       (saveConversation w.storeOk w.now w.db (handleNoData (s3Of w s0))).2,
       0, .noData⟩ := by
  have h1 : (decideCompanyCheck (analyzeIntentNode s0) == "no_company") = false := by
    simp [decideCompanyCheck, analyzeIntentNode, h]
  have h2 : (decideDataAvailability (s3Of w s0) == "no_data") = true := by
    simp [decideDataAvailability, hnd]
  simp only [runWorkflow, runWorkflowCore, h1, Bool.false_eq_true, if_false]
  rw [show checkDataAvailability w.dbOk w.db
      (loadCompanyContext w.dbOk w.db (analyzeIntentNode s0)) = s3Of w s0 from rfl]
  simp only [h2, if_true]

theorem runWorkflow_eq_normal (w : ChatWorld) (s0 : AgentState)
    (h : cmpNumTruthy s0.cmp_num = true)
    (hnd : (s3Of w s0).needs_data_collection = false) :
    runWorkflow w s0 =
      ⟨(saveConversation w.storeOk w.now (executeEsgTools w.db w.now (s3Of w s0)).2
          (generateResponseNode w.llmOutcome (executeEsgTools w.db w.now (s3Of w s0)).1)).1,
       (saveConversation w.storeOk w.now (executeEsgTools w.db w.now (s3Of w s0)).2
          (generateResponseNode w.llmOutcome (executeEsgTools w.db w.now (s3Of w s0)).1)).2,
       1, .normal⟩ := by
  have h1 : (decideCompanyCheck (analyzeIntentNode s0) == "no_company") = false := by
    simp [decideCompanyCheck, analyzeIntentNode, h]
  have h2 : (decideDataAvailability (s3Of w s0) == "no_data") = false := by
    simp [decideDataAvailability, hnd]
  simp only [runWorkflow, runWorkflowCore, h1, Bool.false_eq_true, if_false]
  rw [show checkDataAvailability w.dbOk w.db
      (loadCompanyContext w.dbOk w.db (analyzeIntentNode s0)) = s3Of w s0 from rfl]
  simp only [h2, Bool.false_eq_true, if_false]

/-- C2: for every input state lacking a (truthy) entity id, the
workflow takes the no-company branch, terminates in the `NoEntity`
terminal with the fixed guidance response, issues zero external
generation calls, and leaves the store untouched. -/
theorem workflow_no_entity_terminal (w : ChatWorld) (s0 : AgentState)
    (h : cmpNumTruthy s0.cmp_num = false) :
    (runWorkflow w s0).branch = .noCompany ∧
    (runWorkflow w s0).llmCalls = 0 ∧
    (runWorkflow w s0).state.response_content = noCompanyResponse ∧
    (runWorkflow w s0).db = w.db := by
  rw [runWorkflow_eq_noCompany w s0 h]
  exact ⟨rfl, rfl, rfl, rfl⟩

/-- Witness for `workflow_no_entity_terminal`: a run with `cmp_num`
absent over a store holding one empty session. -/
theorem workflow_no_entity_terminal_witness :
    (runWorkflow
      ⟨⟨[], [], [], [], [⟨"s1", [], 0, "t0"⟩]⟩, true, .ok "ok", true, "2024-01-01T00:00:00"⟩
      ⟨"보고서 생성해줘", none, .jstr "", none, .nil, .nil, .nil, "", false, false,
       "s1", 0, .nil⟩).branch = .noCompany ∧
    (runWorkflow
      ⟨⟨[], [], [], [], [⟨"s1", [], 0, "t0"⟩]⟩, true, .ok "ok", true, "2024-01-01T00:00:00"⟩
      ⟨"보고서 생성해줘", none, .jstr "", none, .nil, .nil, .nil, "", false, false,
       "s1", 0, .nil⟩).llmCalls = 0 ∧
    (runWorkflow
      ⟨⟨[], [], [], [], [⟨"s1", [], 0, "t0"⟩]⟩, true, .ok "ok", true, "2024-01-01T00:00:00"⟩
      ⟨"보고서 생성해줘", none, .jstr "", none, .nil, .nil, .nil, "", false, false,
       "s1", 0, .nil⟩).state.response_content = noCompanyResponse ∧
    (runWorkflow
      ⟨⟨[], [], [], [], [⟨"s1", [], 0, "t0"⟩]⟩, true, .ok "ok", true, "2024-01-01T00:00:00"⟩
      ⟨"보고서 생성해줘", none, .jstr "", none, .nil, .nil, .nil, "", false, false,
       "s1", 0, .nil⟩).db =
      (⟨⟨[], [], [], [], [⟨"s1", [], 0, "t0"⟩]⟩, true, .ok "ok", true,
        "2024-01-01T00:00:00"⟩ : ChatWorld).db :=
  workflow_no_entity_terminal _ _ rfl

/-- C3 counterexample: a run that reaches the `NoEntity` terminal over
a healthy store with an existing session produces its one response but
persists zero Turn pairs — the `handle_no_company → END` edge skips
`save_conversation`, refuting "every terminal state persists exactly
one Turn pair". -/
theorem no_entity_persists_no_turns :
    (runWorkflow
      ⟨⟨[], [], [], [], [⟨"s1", [], 0, "t0"⟩]⟩, true, .ok "ok", true, "2024-01-01T00:00:00"⟩
      ⟨"데이터 보여줘", none, .jstr "", none, .nil, .nil, .nil, "", false, false,
       "s1", 0, .nil⟩).state.response_content = noCompanyResponse ∧
    noCompanyResponse ≠ "" ∧
    sessionMessages
      (runWorkflow
        ⟨⟨[], [], [], [], [⟨"s1", [], 0, "t0"⟩]⟩, true, .ok "ok", true, "2024-01-01T00:00:00"⟩
        ⟨"데이터 보여줘", none, .jstr "", none, .nil, .nil, .nil, "", false, false,
         "s1", 0, .nil⟩).db "s1" = [] := by
  refine ⟨rfl, by decide, rfl⟩

/-- C3 amended: with a nonempty session id, an existing session row and
a successful store commit, the `NoData` and normal paths produce one
response and persist exactly one Turn pair (the user message and that
response); the `NoEntity` path produces its one response but persists
no turns. -/
theorem workflow_turn_persistence (w : ChatWorld) (s0 : AgentState) (sess : SessionRec)
    (hsid : s0.session_id.isEmpty = false)
    (hsess : findSession w.db s0.session_id = some sess)
    (hstore : w.storeOk = true) :
    (cmpNumTruthy s0.cmp_num = false →
      (runWorkflow w s0).state.response_content = noCompanyResponse ∧
      (runWorkflow w s0).db = w.db) ∧
    (cmpNumTruthy s0.cmp_num = true →
      sessionMessages (runWorkflow w s0).db s0.session_id =
        sessionMessages w.db s0.session_id ++
          [⟨"human", s0.query, w.now⟩,
           ⟨"ai", (runWorkflow w s0).state.response_content, w.now⟩]) := by
  constructor
  · intro h
    rw [runWorkflow_eq_noCompany w s0 h]
    exact ⟨rfl, rfl⟩
  · intro h
    by_cases hnd : (s3Of w s0).needs_data_collection = true
    · rw [runWorkflow_eq_noData w s0 h hnd]
      have hsid4 : (handleNoData (s3Of w s0)).session_id = s0.session_id := by
        rw [show (handleNoData (s3Of w s0)).session_id = (s3Of w s0).session_id from rfl]
        exact (sid_query_s3Of w s0).1
      have hq4 : (handleNoData (s3Of w s0)).query = s0.query := by
        rw [show (handleNoData (s3Of w s0)).query = (s3Of w s0).query from rfl]
        exact (sid_query_s3Of w s0).2
      rw [hstore]
      obtain ⟨hfst, happ⟩ := saveConversation_appends w.now w.db
        (handleNoData (s3Of w s0)) sess (by rw [hsid4]; exact hsid)
        (by rw [hsid4]; exact hsess)
      rw [hsid4, hq4] at happ
      show sessionMessages
          (saveConversation true w.now w.db (handleNoData (s3Of w s0))).2 s0.session_id =
        sessionMessages w.db s0.session_id ++
          [⟨"human", s0.query, w.now⟩,
           ⟨"ai", (saveConversation true w.now w.db
              (handleNoData (s3Of w s0))).1.response_content, w.now⟩]
      rw [hfst]
      exact happ
    · have hnd2 : (s3Of w s0).needs_data_collection = false := by
        simpa using hnd
      rw [runWorkflow_eq_normal w s0 h hnd2]
      have hsid5 : (generateResponseNode w.llmOutcome
          (executeEsgTools w.db w.now (s3Of w s0)).1).session_id = s0.session_id := by
        rw [show (generateResponseNode w.llmOutcome
            (executeEsgTools w.db w.now (s3Of w s0)).1).session_id =
            ((executeEsgTools w.db w.now (s3Of w s0)).1).session_id from rfl]
        rw [(sid_query_executeEsgTools w.db w.now (s3Of w s0)).1]
        exact (sid_query_s3Of w s0).1
      have hq5 : (generateResponseNode w.llmOutcome
          (executeEsgTools w.db w.now (s3Of w s0)).1).query = s0.query := by
        rw [show (generateResponseNode w.llmOutcome
            (executeEsgTools w.db w.now (s3Of w s0)).1).query =
            ((executeEsgTools w.db w.now (s3Of w s0)).1).query from rfl]
        rw [(sid_query_executeEsgTools w.db w.now (s3Of w s0)).2]
        exact (sid_query_s3Of w s0).2
      have hsessdb1 : findSession (executeEsgTools w.db w.now (s3Of w s0)).2
          s0.session_id = some sess := by
        unfold findSession
        rw [sessions_executeEsgTools]
        exact hsess
      have hmsgsdb1 : sessionMessages (executeEsgTools w.db w.now (s3Of w s0)).2
          s0.session_id = sessionMessages w.db s0.session_id := by
        unfold sessionMessages findSession
        rw [sessions_executeEsgTools]
      rw [hstore]
      obtain ⟨hfst, happ⟩ := saveConversation_appends w.now
        (executeEsgTools w.db w.now (s3Of w s0)).2
        (generateResponseNode w.llmOutcome (executeEsgTools w.db w.now (s3Of w s0)).1)
        sess (by rw [hsid5]; exact hsid) (by rw [hsid5]; exact hsessdb1)
      rw [hsid5, hq5, hmsgsdb1] at happ
      show sessionMessages
          (saveConversation true w.now (executeEsgTools w.db w.now (s3Of w s0)).2
            (generateResponseNode w.llmOutcome
              (executeEsgTools w.db w.now (s3Of w s0)).1)).2 s0.session_id =
        sessionMessages w.db s0.session_id ++
          [⟨"human", s0.query, w.now⟩,
           ⟨"ai", (saveConversation true w.now
              (executeEsgTools w.db w.now (s3Of w s0)).2
              (generateResponseNode w.llmOutcome
                (executeEsgTools w.db w.now (s3Of w s0)).1)).1.response_content, w.now⟩]
      rw [hfst]
      exact happ

/-- Witness for `workflow_turn_persistence`: a no-company run persists
nothing; a run with an entity and one employee row persists exactly the
user/assistant pair. -/
theorem workflow_turn_persistence_witness :
    sessionMessages
      (runWorkflow
        ⟨⟨[], [⟨some "1", some "N", some 0, some "c"⟩], [], [], [⟨"s1", [], 0, "t0"⟩]⟩,
         true, .ok "답변입니다", true, "2024-01-01T00:00:00"⟩
        ⟨"hello", none, .jstr "", some "6182618882", .nil, .nil, .nil, "", false, false,
         "s1", 0, .nil⟩).db "s1" =
      sessionMessages
        (⟨⟨[], [⟨some "1", some "N", some 0, some "c"⟩], [], [], [⟨"s1", [], 0, "t0"⟩]⟩,
          true, .ok "답변입니다", true, "2024-01-01T00:00:00"⟩ : ChatWorld).db "s1" ++
        [⟨"human", "hello", "2024-01-01T00:00:00"⟩,
         ⟨"ai", (runWorkflow
            ⟨⟨[], [⟨some "1", some "N", some 0, some "c"⟩], [], [], [⟨"s1", [], 0, "t0"⟩]⟩,
             true, .ok "답변입니다", true, "2024-01-01T00:00:00"⟩
            ⟨"hello", none, .jstr "", some "6182618882", .nil, .nil, .nil, "", false, false,
             "s1", 0, .nil⟩).state.response_content, "2024-01-01T00:00:00"⟩] :=
  (workflow_turn_persistence
    ⟨⟨[], [⟨some "1", some "N", some 0, some "c"⟩], [], [], [⟨"s1", [], 0, "t0"⟩]⟩,
     true, .ok "답변입니다", true, "2024-01-01T00:00:00"⟩
    ⟨"hello", none, .jstr "", some "6182618882", .nil, .nil, .nil, "", false, false,
     "s1", 0, .nil⟩
    ⟨"s1", [], 0, "t0"⟩ rfl rfl rfl).2 rfl

/-- C10 counterexample: a normal-path run over a world whose
conversation store rejects every write completes the turn anyway — the
generated response is returned, the run reports the normal terminal,
and the session store is simply left unchanged; no turn-level failure
is surfaced, refuting "StoreError is propagated to the caller". -/
theorem store_failure_swallowed :
    (runWorkflow
      ⟨⟨[], [⟨some "1", some "N", some 0, some "c"⟩], [], [], [⟨"s1", [], 0, "t0"⟩]⟩,
       true, .ok "답변입니다", false, "2024-01-01T00:00:00"⟩
      ⟨"hello", none, .jstr "", some "6182618882", .nil, .nil, .nil, "", false, false,
       "s1", 0, .nil⟩).state.response_content = "답변입니다" ∧
    (runWorkflow
      ⟨⟨[], [⟨some "1", some "N", some 0, some "c"⟩], [], [], [⟨"s1", [], 0, "t0"⟩]⟩,
       true, .ok "답변입니다", false, "2024-01-01T00:00:00"⟩
      ⟨"hello", none, .jstr "", some "6182618882", .nil, .nil, .nil, "", false, false,
       "s1", 0, .nil⟩).branch = .normal ∧
    (runWorkflow
      ⟨⟨[], [⟨some "1", some "N", some 0, some "c"⟩], [], [], [⟨"s1", [], 0, "t0"⟩]⟩,
       true, .ok "답변입니다", false, "2024-01-01T00:00:00"⟩
      ⟨"hello", none, .jstr "", some "6182618882", .nil, .nil, .nil, "", false, false,
       "s1", 0, .nil⟩).db.sessions = [⟨"s1", [], 0, "t0"⟩] :=
  ⟨rfl, rfl, rfl⟩

/-- C10 amended: every error below the workflow-engine boundary is
caught and downgraded to in-band state, including conversation-store
write failures — a run over a failing store yields the same final
state, terminal branch and external-call count as over a healthy one,
and merely leaves the session store untouched; nothing fails the turn. -/
theorem store_failure_downgraded (db : Db) (dbOk : Bool)
    (llm : Except String String) (now : String) (s0 : AgentState) :
    (runWorkflow ⟨db, dbOk, llm, false, now⟩ s0).state =
      (runWorkflow ⟨db, dbOk, llm, true, now⟩ s0).state ∧
    (runWorkflow ⟨db, dbOk, llm, false, now⟩ s0).branch =
      (runWorkflow ⟨db, dbOk, llm, true, now⟩ s0).branch ∧
    (runWorkflow ⟨db, dbOk, llm, false, now⟩ s0).llmCalls =
      (runWorkflow ⟨db, dbOk, llm, true, now⟩ s0).llmCalls ∧
    (runWorkflow ⟨db, dbOk, llm, false, now⟩ s0).db.sessions = db.sessions := by
  by_cases hc : cmpNumTruthy s0.cmp_num = true
  · by_cases hnd : (s3Of (⟨db, dbOk, llm, false, now⟩ : ChatWorld) s0).needs_data_collection = true
    · rw [runWorkflow_eq_noData ⟨db, dbOk, llm, false, now⟩ s0 hc hnd,
          runWorkflow_eq_noData ⟨db, dbOk, llm, true, now⟩ s0 hc hnd]
      refine ⟨?_, rfl, rfl, ?_⟩
      · rw [fst_saveConversation, fst_saveConversation]
        rfl
      · rw [show ((⟨db, dbOk, llm, false, now⟩ : ChatWorld).storeOk) = false from rfl,
            snd_saveConversation_not_ok]
    · have hnd2 : (s3Of (⟨db, dbOk, llm, false, now⟩ : ChatWorld) s0).needs_data_collection
          = false := by simpa using hnd
      rw [runWorkflow_eq_normal ⟨db, dbOk, llm, false, now⟩ s0 hc hnd2,
          runWorkflow_eq_normal ⟨db, dbOk, llm, true, now⟩ s0 hc hnd2]
      refine ⟨?_, rfl, rfl, ?_⟩
      · rw [fst_saveConversation, fst_saveConversation]
        rfl
      · rw [show ((⟨db, dbOk, llm, false, now⟩ : ChatWorld).storeOk) = false from rfl,
            snd_saveConversation_not_ok, sessions_executeEsgTools]
  · have hc2 : cmpNumTruthy s0.cmp_num = false := by simpa using hc
    rw [runWorkflow_eq_noCompany ⟨db, dbOk, llm, false, now⟩ s0 hc2,
        runWorkflow_eq_noCompany ⟨db, dbOk, llm, true, now⟩ s0 hc2]
    exact ⟨rfl, rfl, rfl, rfl⟩

/-- Witness for `store_failure_downgraded`: the concrete failing-store
world compared against its healthy twin. -/
theorem store_failure_downgraded_witness :
    (runWorkflow
      ⟨⟨[], [⟨some "1", some "N", some 0, some "c"⟩], [], [], [⟨"s1", [], 0, "t0"⟩]⟩,
       true, .ok "답변입니다", false, "2024-01-01T00:00:00"⟩
      ⟨"hello", none, .jstr "", some "6182618882", .nil, .nil, .nil, "", false, false,
       "s1", 0, .nil⟩).db.sessions =
    (⟨[], [⟨some "1", some "N", some 0, some "c"⟩], [], [], [⟨"s1", [], 0, "t0"⟩]⟩ : Db).sessions :=
  (store_failure_downgraded
    ⟨[], [⟨some "1", some "N", some 0, some "c"⟩], [], [], [⟨"s1", [], 0, "t0"⟩]⟩
    true (.ok "답변입니다") "2024-01-01T00:00:00"
    ⟨"hello", none, .jstr "", some "6182618882", .nil, .nil, .nil, "", false, false,
     "s1", 0, .nil⟩).2.2.2

end EsgReporter
